import Mathlib

/-
Verification of the Ceph Ansible wrapper modules (ceph, ceph_osd_pool,
ceph_osd_tier, ceph_rbd, ceph_rbd_map, in both their shell-command and
client-library variants) against their natural-language specification.

Each Python module body is shallowly embedded as a pure Lean function from
the declarative parameters and an environment (the observable behaviour of
the external cluster: command outputs, existing pools, existing images,
existing device mappings) to the terminal outcome of the invocation
together with the trace of external commands issued.
-/

namespace Ceph

/-- Exit status, primary output stream and diagnostic output stream of one
external command or client-library call, as returned by
module.run_command or ceph_argparse.json_command. -/
structure CmdOut where
  rc : Int
  out : String
  err : String
deriving Repr, DecidableEq

/-- Python s.rstrip of carriage returns and newlines: drop trailing CR and
LF characters. Implemented by structural recursion over the character
list so that closed instances evaluate inside the kernel. -/
def rstripCRLF (s : String) : String :=
  ⟨(s.data.reverse.dropWhile (fun c => c = '\r' || c = '\n')).reverse⟩

/-- Python s.startswith(t): t is a prefix of s. Implemented by structural
recursion over the character lists so that closed instances evaluate
inside the kernel. -/
def pyStartsWith (s t : String) : Bool :=
  t.data.isPrefixOf s.data

/-- Python truthiness of an optional integer parameter: None and 0 are
falsy, every other value is truthy. -/
def truthyInt : Option Int → Bool
  | none => false
  | some n => n != 0

/-- Python truthiness of an optional string parameter: None and the empty
string are falsy. -/
def truthyStr : Option String → Bool
  | none => false
  | some s => s != ""

/-- Python truthiness of an optional boolean parameter: None and False are
falsy. -/
def truthyBool : Option Bool → Bool
  | none => false
  | some b => b

/-- How a module invocation terminates: a normal exit_json carrying the
result record, a fail_json carrying a message, or an unhandled Python
exception (NameError, KeyError, ValueError) that kills the process before
any result record is produced. -/
inductive MExit (α : Type) where
  | exitJson : α → MExit α
  | failJson : String → MExit α
  | raised : String → MExit α
deriving Repr, DecidableEq

namespace CephOsdPool

/-- Parameters of the shell-variant ceph_osd_pool module (its
argument_spec). The Python parameter named type is embedded as ptype
because type is a Lean keyword. -/
structure Params where
  state : String
  name : String
  pgnum : Option Int
  pgpnum : Option Int
  ptype : String
  ruleset : Option String
deriving Repr, DecidableEq

/-- Result record of the shell-variant ceph_osd_pool module. Fields set by
its nested sh helper are optional: they are present exactly when a command
was run. -/
structure Res where
  name : String
  rc : Option Int := none
  cmd : Option String := none
  stdout : Option String := none
  stderr : Option String := none
  changed : Bool := false
deriving Repr, DecidableEq

/-- The main body of the shell-variant ceph_osd_pool module. pools is the
list returned by cluster.list_pools, run is the behaviour of
module.run_command. Returns the terminal outcome and the trace of commands
passed to sh. -/
def main (p : Params) (pools : List String) (run : String → CmdOut) :
    MExit Res × List String :=
  let res0 : Res := { name := p.name }
  if p.state == "present" then
    if pools.contains p.name then
      (MExit.exitJson res0, [])
    else if ! truthyInt p.pgnum then
      (MExit.failJson "pgnum is required when state=present", [])
    else if truthyStr p.ruleset && ! truthyInt p.pgpnum then
      (MExit.failJson "pgpnum is required when ruleset specified", [])
    else if p.ptype == "erasure" && ! truthyInt p.pgpnum then
      (MExit.failJson "pgpnum is required when type=erasure", [])
    else
      let pg := toString (p.pgnum.getD 0)
      let pgp := toString (p.pgpnum.getD 0)
      let rs := p.ruleset.getD ""
      let cmd :=
        if p.ptype == "erasure" then
          let c := s!"ceph osd pool create {p.name} {pg} {pgp} erasure"
          if truthyStr p.ruleset then c ++ " " ++ rs else c
        else if truthyStr p.ruleset then
          s!"ceph osd pool create {p.name} {pg} {pgp} replicated {rs}"
        else if truthyInt p.pgpnum then
          s!"ceph osd pool create {p.name} {pg} {pgp}"
        else
          s!"ceph osd pool create {p.name} {pg}"
      let r := run cmd
      let serr := rstripCRLF r.err
      (MExit.exitJson { res0 with
          rc := some r.rc
          cmd := some cmd
          stdout := some (rstripCRLF r.out)
          stderr := some serr
          changed := s!"pool \x27{p.name}\x27 created" == serr }, [cmd])
  else
    if pools.contains p.name then
      let cmd :=
        s!"ceph osd pool delete {p.name} {p.name} --yes-i-really-really-mean-it"
      let r := run cmd
      let serr := rstripCRLF r.err
      (MExit.exitJson { res0 with
          rc := some r.rc
          cmd := some cmd
          stdout := some (rstripCRLF r.out)
          stderr := some serr
          changed := s!"pool \x27{p.name}\x27 removed" == serr }, [cmd])
    else
      (MExit.exitJson res0, [])

end CephOsdPool

namespace CephRbd

/-- Parameters of the ceph_rbd module (its argument_spec). The image
parameter is parsed by the module but never read by its body. -/
structure Params where
  state : String
  name : String
  pool : Option String
  image : Option String
  size : Option Int
  allow_shrink : Bool
  image_format : Option Int
  image_shared : Option Bool
deriving Repr, DecidableEq

/-- Observable external state for the ceph_rbd module: the image names
listed at entry, the current byte size of the named image (read only when
it exists), the behaviour of module.run_command, and the image names
listed when the module re-queries after a create. -/
structure Env where
  rbdNames : List String
  currentSize : Int
  run : String → CmdOut
  rbdNamesAfter : List String

/-- Result record of the ceph_rbd module. Its sh helper copies the
rstripped stdout into both the stdout and the stderr fields. -/
structure Res where
  name : String
  rc : Option Int := none
  cmd : Option String := none
  stdout : Option String := none
  stderr : Option String := none
  changed : Bool := false
deriving Repr, DecidableEq

/-- The main body of the ceph_rbd module. Two statements of the source
read variables that are never bound (the bare name stderr in the resize
and remove classification, and the local cmd in the remove branch when a
pool was supplied); Python raises a NameError there, embedded as the
raised outcome. -/
def main (p : Params) (env : Env) : MExit Res × List String :=
  let res0 : Res := { name := p.name }
  let rbdExists := env.rbdNames.contains p.name
  if p.state == "present" then
    if ! truthyInt p.size then
      (MExit.failJson "size is required when state=present", [])
    else if ! rbdExists then
      let c0 := s!"rbd create {p.name} --size {p.size.getD 0}"
      let c1 := if truthyInt p.image_format then
          c0 ++ " --image-format " ++ toString (p.image_format.getD 0) else c0
      let c2 := if truthyBool p.image_shared then c1 ++ " --image-shared" else c1
      let cmd := if truthyStr p.pool then c2 ++ " --pool " ++ p.pool.getD "" else c2
      let r := env.run cmd
      let so := rstripCRLF r.out
      (MExit.exitJson { res0 with
          rc := some r.rc
          cmd := some cmd
          stdout := some so
          stderr := some so
          changed := env.rbdNamesAfter.contains p.name }, [cmd])
    else
      let newSize := p.size.getD 0 * 1024 * 1024
      if newSize < env.currentSize ∧ p.allow_shrink = false then
        (MExit.failJson "shrinking an image is only allowed with allow_shrink=\"true\"", [])
      else if newSize == env.currentSize then
        (MExit.exitJson res0, [])
      else
        let c0 := s!"rbd resize --size {p.size.getD 0} {p.name}"
        let c1 := if p.allow_shrink then c0 ++ " --allow-shrink" else c0
        let cmd := if truthyStr p.pool then c1 ++ " --pool " ++ p.pool.getD "" else c1
        let r := env.run cmd
        let so := rstripCRLF r.out
        if pyStartsWith so "\rResizing image" then
          (MExit.raised "NameError: stderr", [cmd])
        else
          (MExit.exitJson { res0 with
              rc := some r.rc
              cmd := some cmd
              stdout := some so
              stderr := some so
              changed := false }, [cmd])
  else if p.state == "absent" && rbdExists then
    if truthyStr p.pool then
      (MExit.raised "NameError: cmd", [])
    else
      let cmd := "rbd rm " ++ p.name
      let r := env.run cmd
      let so := rstripCRLF r.out
      if pyStartsWith so "\rRemoving image" then
        (MExit.raised "NameError: stderr", [cmd])
      else
        (MExit.exitJson { res0 with
            rc := some r.rc
            cmd := some cmd
            stdout := some so
            stderr := some so
            changed := false }, [cmd])
  else
    (MExit.exitJson res0, [])

end CephRbd

namespace CephRbdMap

/-- Parameters of the ceph_rbd_map module (its argument_spec). The id,
options and read_only parameters are parsed but never read by the body. -/
structure Params where
  state : String
  name : String
  pool : Option String
  id : Option String
  options : Option String
  read_only : Option Bool
deriving Repr, DecidableEq

/-- Observable external state for ceph_rbd_map: the image-name to device
mapping reported by rbd showmapped at entry, the behaviour of
module.run_command, and the mapping reported by the re-query after a map
or unmap command. -/
structure Env where
  mappings : List (String × String)
  run : String → CmdOut
  mappingsAfter : List (String × String)

/-- Result record of ceph_rbd_map. Its sh helper copies the rstripped
stdout into both the stdout and the stderr fields. rbd_mappings is the
re-queried mapping, present exactly when a command ran. -/
structure Res where
  name : String
  rc : Option Int := none
  cmd : Option String := none
  stdout : Option String := none
  stderr : Option String := none
  rbd_mappings : Option (List (String × String)) := none
  changed : Bool := false
deriving Repr, DecidableEq

/-- The main body of the ceph_rbd_map module. The change flag is decided
by membership of the image name in the re-queried mapping, never by
matching the command output against an expected message. -/
def main (p : Params) (env : Env) : MExit Res × List String :=
  let res0 : Res := { name := p.name }
  if (env.mappings.map Prod.fst).contains p.name then
    if p.state == "absent" then
      let dev := (env.mappings.lookup p.name).getD ""
      let cmd := "rbd unmap " ++ dev
      let r := env.run cmd
      let so := rstripCRLF r.out
      (MExit.exitJson { res0 with
          rc := some r.rc
          cmd := some cmd
          stdout := some so
          stderr := some so
          rbd_mappings := some env.mappingsAfter
          changed := ! (env.mappingsAfter.map Prod.fst).contains p.name }, [cmd])
    else
      (MExit.exitJson res0, [])
  else
    if p.state == "present" then
      let c0 := "rbd map " ++ p.name
      let cmd := if truthyStr p.pool then c0 ++ " --pool " ++ p.pool.getD "" else c0
      let r := env.run cmd
      let so := rstripCRLF r.out
      (MExit.exitJson { res0 with
          rc := some r.rc
          cmd := some cmd
          stdout := some so
          stderr := some so
          rbd_mappings := some env.mappingsAfter
          changed := (env.mappingsAfter.map Prod.fst).contains p.name }, [cmd])
    else
      (MExit.exitJson res0, [])

end CephRbdMap

namespace CephOsdTier

/-- Parameters of the ceph_osd_tier module (its argument_spec). -/
structure Params where
  state : String
  storage_pool : String
  cache_pool : String
  cache_mode : String
  set_overlay : Bool
  force_nonempty : Bool
deriving Repr, DecidableEq

/-- Result record of ceph_osd_tier. The fields written by its sh helper
hold the values of the most recent command. -/
structure Res where
  storage_pool : String
  cache_pool : String
  rc : Option Int := none
  cmd : Option String := none
  stdout : Option String := none
  stderr : Option String := none
  changed : Bool := false
deriving Repr, DecidableEq

/-- One call of the nested sh helper of ceph_osd_tier: run the command and
overwrite the command-outcome fields of the result record. -/
def shUpd (res : Res) (run : String → CmdOut) (cmd : String) : Res :=
  let r := run cmd
  { res with
    rc := some r.rc
    cmd := some cmd
    stdout := some (rstripCRLF r.out)
    stderr := some (rstripCRLF r.err) }

/-- The main body of the ceph_osd_tier module. In the present flow each
later step runs only when the previous step's diagnostic output matched
its expected confirmation text; the exit status of a step is never
inspected. In the absent flow both commands are always issued, whether or
not the tier relationship exists. -/
def main (p : Params) (pools : List String) (run : String → CmdOut) :
    MExit Res × List String :=
  let res0 : Res := { storage_pool := p.storage_pool, cache_pool := p.cache_pool }
  let sp := p.storage_pool
  let cp := p.cache_pool
  if p.state == "present" then
    if ! pools.contains sp then
      (MExit.failJson "storage_pool does not exist", [])
    else if ! pools.contains cp then
      (MExit.failJson "cache_pool does not exist", [])
    else
      let addCmd := if p.force_nonempty then
          s!"ceph osd tier add {sp} {cp} --force-nonempty"
        else
          s!"ceph osd tier add {sp} {cp}"
      let res1 := shUpd res0 run addCmd
      let m1 := s!"pool \x27{cp}\x27 is now (or already was) a tier of \x27{sp}\x27"
          == res1.stderr.getD ""
      if m1 then
        let modeCmd := s!"ceph osd tier cache-mode {cp} {p.cache_mode}"
        let res2 := shUpd res1 run modeCmd
        let m2 := s!"set cache_mode for pool \x27{cp}\x27 to {p.cache_mode}"
            == res2.stderr.getD ""
        if m2 then
          if p.set_overlay then
            let oCmd := s!"ceph osd tier set-overlay {sp} {cp}"
            let res3 := shUpd res2 run oCmd
            let m3 := s!"overlay for \x27{sp}\x27 is now (or already was) \x27{cp}\x27"
                == res3.stderr.getD ""
            (MExit.exitJson { res3 with changed := m3 }, [addCmd, modeCmd, oCmd])
          else
            let oCmd := s!"ceph osd tier remove-overlay {cp}"
            let res3 := shUpd res2 run oCmd
            let m3 := s!"there is now (or already was) no overlay for \x27{cp}\x27"
                == res3.stderr.getD ""
            (MExit.exitJson { res3 with changed := m3 }, [addCmd, modeCmd, oCmd])
        else
          (MExit.exitJson { res2 with changed := false }, [addCmd, modeCmd])
      else
        (MExit.exitJson { res1 with changed := false }, [addCmd])
  else
    if ! pools.contains sp then
      (MExit.failJson "storage_pool does not exist", [])
    else if ! pools.contains cp then
      (MExit.failJson "cache_pool does not exist", [])
    else
      let c1 := s!"ceph osd tier remove-overlay {cp}"
      let res1 := shUpd res0 run c1
      -- the source compares this step against a message formatted with the
      -- storage pool, then unconditionally overwrites changed at the next step
      let c2 := s!"ceph osd tier remove {sp} {cp}"
      let res2 := shUpd res1 run c2
      let m2 := s!"pool \x27{cp}\x27 is now (or already was) not a tier of \x27{sp}\x27"
          == res2.stderr.getD ""
      (MExit.exitJson { res2 with changed := m2 }, [c1, c2])

end CephOsdTier

namespace CephMod

/-- Result record of the shell-variant ceph query module. The parsed JSON
payload of the queried status is carried opaquely as a string. -/
structure Res where
  cmd : String
  stderr : String
  rc : Int
  changed : Bool
  ceph_status : Option String := none
  quorum_status : Option String := none
deriving Repr, DecidableEq

/-- Environment of the shell-variant ceph query module: the behaviour of
module.run_command and of json.loads (none models a parse exception). -/
structure Env where
  run : String → CmdOut
  loads : String → Option String

/-- The CMDS table of the shell-variant ceph module. -/
def CMDS (c : String) : Option String :=
  if c == "status" then some "status --format=json"
  else if c == "quorum_status" then some "quorum_status"
  else none

/-- The main body of the shell-variant ceph query module. The result is
built with changed set to True unconditionally. -/
def main (cmdParam : String) (env : Env) : MExit Res × List String :=
  match CMDS cmdParam with
  | none => (MExit.raised "KeyError", [])
  | some tail =>
    let cmd := "ceph " ++ tail
    let r := env.run cmd
    let res0 : Res := { cmd := cmd, stderr := rstripCRLF r.err, rc := r.rc, changed := true }
    if cmdParam == "status" then
      match env.loads (rstripCRLF r.out) with
      | none => (MExit.raised "ValueError", [cmd])
      | some j => (MExit.exitJson { res0 with ceph_status := some j }, [cmd])
    else
      match env.loads (rstripCRLF r.out) with
      | none => (MExit.raised "ValueError", [cmd])
      | some j => (MExit.exitJson { res0 with quorum_status := some j }, [cmd])

end CephMod

/-- Argument mapping passed to ceph_argparse.json_command, embedded as an
association list in insertion order. -/
abbrev JArgs := List (String × String)

namespace CloudCeph

/-- Environment of the client-library ceph query module: whether
constructing the rados handle succeeds, whether connect succeeds within
the timeout, the behaviour of json_command, of json.loads (none models a
parse exception), and the errno.errorcode table. -/
structure Env where
  initOk : Bool
  connectOk : Bool
  jcmd : JArgs → CmdOut
  loads : String → Option String
  errorcode : Int → String

/-- Result record of the client-library ceph query module. -/
structure Res where
  cmd : String
  rc : Int
  changed : Bool
  ceph_status : Option String := none
  quorum_status : Option String := none
deriving Repr, DecidableEq

/-- The CMDS table of the client-library ceph module. -/
def CMDS (c : String) : Option String :=
  if c == "status" then some "status --format=json"
  else if c == "quorum_status" then some "quorum_status"
  else none

/-- The DICTS table of the client-library ceph module. -/
def DICTS (c : String) : Option JArgs :=
  if c == "status" then some [("prefix", "status"), ("format", "json")]
  else if c == "quorum_status" then some [("prefix", "quorum_status")]
  else none

/-- Terminal state of one invocation of a client-library module: the exit,
whether the cluster connection was opened, and whether
cluster_handle.shutdown was called before the process ended. -/
structure Out (α : Type) where
  fin : MExit α
  connected : Bool
  shutdownCalled : Bool
deriving Repr, DecidableEq

/-- The main body of the client-library ceph query module. Everything after
a successful connect runs inside a try block whose finally clause calls
cluster_handle.shutdown, so every exit from that region records the
shutdown; the two failure exits before the connect succeed never opened a
connection. -/
def main (cmdParam : String) (env : Env) : Out Res :=
  if ! env.initOk then
    { fin := MExit.failJson "Error initializing cluster client"
      connected := false
      shutdownCalled := false }
  else if ! env.connectOk then
    { fin := MExit.failJson "Error connecting to cluster"
      connected := false
      shutdownCalled := false }
  else
    match DICTS cmdParam with
    | none => { fin := MExit.raised "KeyError", connected := true, shutdownCalled := true }
    | some args =>
      let r := env.jcmd args
      if r.rc != 0 then
        { fin := MExit.failJson (s!"Error: {r.rc} " ++ env.errorcode r.rc)
          connected := true
          shutdownCalled := true }
      else
        let res0 : Res :=
          { cmd := "ceph " ++ (CMDS cmdParam).getD "", rc := r.rc, changed := true }
        if cmdParam == "status" then
          match env.loads r.out with
          | none => { fin := MExit.raised "ValueError", connected := true, shutdownCalled := true }
          | some j =>
            { fin := MExit.exitJson { res0 with ceph_status := some j }
              connected := true
              shutdownCalled := true }
        else
          match env.loads r.out with
          | none => { fin := MExit.raised "ValueError", connected := true, shutdownCalled := true }
          | some j =>
            { fin := MExit.exitJson { res0 with quorum_status := some j }
              connected := true
              shutdownCalled := true }

end CloudCeph

namespace CloudOsdPool

/-- Parameters of the client-library ceph_osd_pool module. The Python
parameter named type is embedded as ptype because type is a Lean keyword.
The client_name, cluster, conf and connect_timeout parameters only
configure the handle and are absorbed into the environment. -/
structure Params where
  state : String
  name : String
  pgnum : Option Int
  pgpnum : Option Int
  ptype : String
  erasure_code_profile : Option String
  ruleset : Option String
deriving Repr, DecidableEq

/-- Environment of the client-library ceph_osd_pool module: handle
construction and connect outcomes, the pool list returned by
cluster_handle.list_pools, the behaviour of json_command, the json.loads
decodings of the two query outputs (the lspools list of poolname/poolnum
pairs, and the integer value of a pool variable), and errno.errorcode. -/
structure Env where
  initOk : Bool
  connectOk : Bool
  pools : List String
  jcmd : JArgs → CmdOut
  loadsPools : String → List (String × Int)
  loadsGetInt : String → String → Int
  errorcode : Int → String

/-- Result record of the client-library ceph_osd_pool module. -/
structure Res where
  name : String
  changed : Bool := false
  outbuf : Option String := none
  outs : Option String := none
deriving Repr, DecidableEq

/-- The argdict built by osd_pool_create. In the replicated branch a
supplied ruleset is stored under the erasure_code_profile key, exactly as
the source does. -/
def createArgs (p : Params) : JArgs :=
  let base := [("prefix", "osd pool create"), ("pool", p.name),
    ("pool_type", p.ptype), ("pg_num", toString (p.pgnum.getD 0))]
  if p.ptype == "erasure" then
    base ++ [("pgp_num", toString (p.pgpnum.getD 0))]
      ++ (if truthyStr p.erasure_code_profile then
            [("erasure_code_profile", p.erasure_code_profile.getD "")] else [])
      ++ (if truthyStr p.ruleset then [("ruleset", p.ruleset.getD "")] else [])
  else
    (if truthyStr p.ruleset then
        base ++ [("erasure_code_profile", p.ruleset.getD "")] else base)
      ++ (if truthyInt p.pgpnum then
            [("pgp_num", toString (p.pgpnum.getD 0))] else [])

/-- The osd_pool_create sub-action: validate, issue one create call, fail
on a nonzero status, otherwise classify by exact comparison of the
diagnostic text with the expected creation message. -/
def osd_pool_create (p : Params) (env : Env) (res : Res) : MExit Res × List JArgs :=
  if ! truthyInt p.pgnum then
    (MExit.failJson "pgnum is required when state=present", [])
  else if truthyStr p.ruleset && ! truthyInt p.pgpnum then
    (MExit.failJson "pgpnum is required when ruleset specified", [])
  else if p.ptype == "erasure" && ! truthyInt p.pgpnum then
    (MExit.failJson "pgpnum is required when type=erasure", [])
  else
    let args := createArgs p
    let r := env.jcmd args
    if r.rc != 0 then
      (MExit.failJson (s!"Error: {r.rc} " ++ env.errorcode r.rc), [args])
    else
      (MExit.exitJson { res with
          changed := s!"pool \x27{p.name}\x27 created" == r.err
          outbuf := some r.out
          outs := some r.err }, [args])

/-- The argdict built by osd_lspools. -/
def lspoolsArgs : JArgs := [("prefix", "osd lspools"), ("format", "json")]

/-- The osd_lspools helper: query the pool listing, fail on a nonzero
status, otherwise decode the JSON output. -/
def osd_lspools (env : Env) : MExit (List (String × Int)) × List JArgs :=
  let r := env.jcmd lspoolsArgs
  if r.rc != 0 then
    (MExit.failJson (s!"Error: {r.rc} " ++ env.errorcode r.rc), [lspoolsArgs])
  else
    (MExit.exitJson (env.loadsPools r.out), [lspoolsArgs])

/-- The argdict built by osd_pool_get. -/
def getArgs (name v : String) : JArgs :=
  [("prefix", "osd pool get"), ("pool", name), ("var", v), ("format", "json")]

/-- The osd_pool_get helper: query one pool variable, fail on a nonzero
status, otherwise decode the variable from the JSON output. -/
def osd_pool_get (p : Params) (env : Env) (v : String) : MExit Int × List JArgs :=
  let r := env.jcmd (getArgs p.name v)
  if r.rc != 0 then
    (MExit.failJson (s!"Error: {r.rc} " ++ env.errorcode r.rc), [getArgs p.name v])
  else
    (MExit.exitJson (env.loadsGetInt r.out v), [getArgs p.name v])

/-- The expected-message pattern of osd_pool_set up to its trailing digit
wildcard: set pool, the pool number, the variable name and to. -/
def setExpected (poolnum : Int) (v : String) : String :=
  s!"set pool {poolnum} {v} to "

/-- The argdict built by osd_pool_set. -/
def setArgs (name v : String) (newVal : Int) : JArgs :=
  [("prefix", "osd pool set"), ("pool", name), ("var", v), ("val", toString newVal)]

/-- The osd_pool_set sub-action: look the pool number up in the lspools
listing (failing with ENOENT when absent), issue one set call, fail with
the raw diagnostic text on a nonzero status, otherwise classify by
matching the diagnostic text against the pattern whose trailing value is a
digit wildcard. Because the trailing digit wildcard of the source regex
also matches the empty string and re.match anchors at the start only, the
match succeeds exactly when the text up to the wildcard starts the
output. -/
def osd_pool_set (p : Params) (env : Env) (res : Res) (v : String) (newVal : Int) :
    MExit Res × List JArgs :=
  match osd_lspools env with
  | (MExit.failJson m, t) => (MExit.failJson m, t)
  | (MExit.raised m, t) => (MExit.raised m, t)
  | (MExit.exitJson ps, t) =>
    match ps.find? (fun q => q.fst == p.name) with
    | none => (MExit.failJson s!"Error ENOENT: unrecognized pool \x27{p.name}\x27", t)
    | some q =>
      let r := env.jcmd (setArgs p.name v newVal)
      if r.rc != 0 then
        (MExit.failJson r.err, t ++ [setArgs p.name v newVal])
      else
        (MExit.exitJson { res with
            changed := pyStartsWith r.err (setExpected q.snd v)
            outs := some r.err }, t ++ [setArgs p.name v newVal])

/-- The osd_pool_modify sub-action: for each of pgnum and pgpnum that is
truthy, read the current value; an equal request is skipped, a larger one
is applied through osd_pool_set, and a smaller one fails. -/
def osd_pool_modify (p : Params) (env : Env) (res : Res) : MExit Res × List JArgs :=
  let step1 : MExit Res × List JArgs :=
    if truthyInt p.pgnum then
      let k := p.pgnum.getD 0
      match osd_pool_get p env "pg_num" with
      | (MExit.failJson m, t) => (MExit.failJson m, t)
      | (MExit.raised m, t) => (MExit.raised m, t)
      | (MExit.exitJson cur, t) =>
        if k == cur then (MExit.exitJson res, t)
        else if k > cur then
          let s := osd_pool_set p env res "pg_num" k
          (s.1, t ++ s.2)
        else
          (MExit.failJson s!"specified pg_num {k} <= current {cur}", t)
    else (MExit.exitJson res, [])
  match step1 with
  | (MExit.failJson m, t) => (MExit.failJson m, t)
  | (MExit.raised m, t) => (MExit.raised m, t)
  | (MExit.exitJson res1, t1) =>
    if truthyInt p.pgpnum then
      let k := p.pgpnum.getD 0
      match osd_pool_get p env "pgp_num" with
      | (MExit.failJson m, t) => (MExit.failJson m, t1 ++ t)
      | (MExit.raised m, t) => (MExit.raised m, t1 ++ t)
      | (MExit.exitJson cur, t) =>
        if k == cur then (MExit.exitJson res1, t1 ++ t)
        else if k > cur then
          let s := osd_pool_set p env res1 "pgp_num" k
          (s.1, t1 ++ t ++ s.2)
        else
          (MExit.failJson s!"specified pgp_num {k} <= current {cur}", t1 ++ t)
    else (MExit.exitJson res1, t1)

/-- The argdict built by osd_pool_delete. -/
def deleteArgs (name : String) : JArgs :=
  [("prefix", "osd pool delete"), ("pool", name), ("pool2", name),
   ("sure", "--yes-i-really-really-mean-it")]

/-- The osd_pool_delete sub-action: issue one delete call, fail on a
nonzero status, otherwise classify by exact comparison of the diagnostic
text with the expected removal message. -/
def osd_pool_delete (p : Params) (env : Env) (res : Res) : MExit Res × List JArgs :=
  let r := env.jcmd (deleteArgs p.name)
  if r.rc != 0 then
    (MExit.failJson (s!"Error: {r.rc} " ++ env.errorcode r.rc), [deleteArgs p.name])
  else
    (MExit.exitJson { res with
        changed := s!"pool \x27{p.name}\x27 removed" == r.err
        outbuf := some r.out
        outs := some r.err }, [deleteArgs p.name])

/-- The main body of the client-library ceph_osd_pool module. The dispatch
body runs inside a try block whose finally clause calls
cluster_handle.shutdown; the two failure exits before the connect succeeds
never opened a connection. -/
def main (p : Params) (env : Env) : CloudCeph.Out Res × List JArgs :=
  let res0 : Res := { name := p.name }
  if ! env.initOk then
    ({ fin := MExit.failJson "Error initializing cluster client"
       connected := false
       shutdownCalled := false }, [])
  else if ! env.connectOk then
    ({ fin := MExit.failJson "Error connecting to cluster"
       connected := false
       shutdownCalled := false }, [])
  else
    let body : MExit Res × List JArgs :=
      if p.state == "present" then
        if env.pools.contains p.name then osd_pool_modify p env res0
        else osd_pool_create p env res0
      else
        if env.pools.contains p.name then osd_pool_delete p env res0
        else (MExit.exitJson res0, [])
    ({ fin := body.1, connected := true, shutdownCalled := true }, body.2)

end CloudOsdPool

/-! Concrete parameter sets and environments used by the counterexamples
and the witnesses below. -/

/-- A command behaviour that succeeds with empty output on every command. -/
def silentRun : String → CmdOut := fun _ => { rc := 0, out := "", err := "" }

/-- Map request for an image that is not currently mapped. -/
def mapImgParams : CephRbdMap.Params :=
  { state := "present", name := "img", pool := none, id := none,
    options := none, read_only := none }

/-- Environment where the map command succeeds silently and the re-query
shows the image mapped. -/
def mapEnvMapped : CephRbdMap.Env :=
  { mappings := [], run := silentRun, mappingsAfter := [("img", "dev0")] }

/-- Environment with the same command behaviour where the re-query still
shows the image unmapped. -/
def mapEnvUnmapped : CephRbdMap.Env :=
  { mappings := [], run := silentRun, mappingsAfter := [] }

/-- Absent request for a cache tier. -/
def tierAbsentParams : CephOsdTier.Params :=
  { state := "absent", storage_pool := "cold", cache_pool := "hot",
    cache_mode := "writeback", set_overlay := false, force_nonempty := false }

/-- Command behaviour of a cluster in which the hot pool is not a tier of
the cold pool: both removal commands answer with their already-was
confirmation text. -/
def tierAbsentRun : String → CmdOut := fun c =>
  if c == "ceph osd tier remove-overlay hot" then
    { rc := 0, out := "", err := "there is now (or already was) no overlay for \x27hot\x27" }
  else
    { rc := 0, out := "", err := "pool \x27hot\x27 is now (or already was) not a tier of \x27cold\x27" }

/-- Present request for a cache tier. -/
def tierPresentParams : CephOsdTier.Params :=
  { state := "present", storage_pool := "cold", cache_pool := "hot",
    cache_mode := "writeback", set_overlay := false, force_nonempty := false }

/-- Command behaviour where every command succeeds (status zero) but
answers with text that matches no expected confirmation message. -/
def unconfirmedRun : String → CmdOut := fun _ =>
  { rc := 0, out := "", err := "unexpected" }

/-- Create request for a pool named data with 128 placement groups. -/
def poolCreateParams : CephOsdPool.Params :=
  { state := "present", name := "data", pgnum := some 128, pgpnum := none,
    ptype := "replicated", ruleset := none }

/-- Command behaviour where every command fails with status 1. -/
def failingRun : String → CmdOut := fun _ =>
  { rc := 1, out := "", err := "Error EPERM: boom" }

/-- Present request on the client-library pool module with a requested
placement-group count of zero. -/
def cloudPgnumZeroParams : CloudOsdPool.Params :=
  { state := "present", name := "data", pgnum := some 0, pgpnum := none,
    ptype := "replicated", erasure_code_profile := none, ruleset := none }

/-- Like cloudPgnumZeroParams but requesting 5 placement groups. -/
def cloudPgnum5Params : CloudOsdPool.Params :=
  { cloudPgnumZeroParams with pgnum := some 5 }

/-- Like cloudPgnumZeroParams but requesting 8 placement groups. -/
def cloudPgnum8Params : CloudOsdPool.Params :=
  { cloudPgnumZeroParams with pgnum := some 8 }

/-- Like cloudPgnumZeroParams but requesting 9 placement groups. -/
def cloudPgnum9Params : CloudOsdPool.Params :=
  { cloudPgnumZeroParams with pgnum := some 9 }

/-- Client-library environment of a cluster holding one pool named data
with pool number 1 and a current pg_num of 8, in which every call succeeds
and a set call answers with its confirmation text. -/
def cloudPoolEnv : CloudOsdPool.Env :=
  { initOk := true, connectOk := true, pools := ["data"],
    jcmd := fun _ => { rc := 0, out := "[]", err := "set pool 1 pg_num to 9" },
    loadsPools := fun _ => [("data", 1)],
    loadsGetInt := fun _ _ => 8,
    errorcode := fun _ => "EPERM" }

/-- Present request on the shell pool module without a pgnum parameter. -/
def poolNoPgnumParams : CephOsdPool.Params :=
  { state := "present", name := "data", pgnum := none, pgpnum := none,
    ptype := "replicated", ruleset := none }

/-- Present request on the shell pool module with a ruleset but no
pgpnum. -/
def poolRulesetParams : CephOsdPool.Params :=
  { state := "present", name := "data", pgnum := some 128, pgpnum := none,
    ptype := "replicated", ruleset := some "rs" }

/-- Client-library query environment where everything succeeds. -/
def cloudCephEnv : CloudCeph.Env :=
  { initOk := true, connectOk := true,
    jcmd := fun _ => { rc := 0, out := "\x7b\x7d", err := "" },
    loads := fun s => some s,
    errorcode := fun _ => "EPERM" }

/-- Shell query environment where everything succeeds. -/
def shellCephEnv : CephMod.Env :=
  { run := fun _ => { rc := 0, out := "\x7b\x7d", err := "" },
    loads := fun s => some s }

/-- Resize request for an existing image named img to 5 MB. -/
def rbdResizeParams : CephRbd.Params :=
  { state := "present", name := "img", pool := none, image := none,
    size := some 5, allow_shrink := false, image_format := none,
    image_shared := none }

/-- Environment where img exists with a current size of one byte and the
resize command prints the progress line the module tests for. -/
def rbdResizeEnv : CephRbd.Env :=
  { rbdNames := ["img"], currentSize := 1,
    run := fun _ =>
      { rc := 0, out := "\rResizing image: 100% complete...done.\n", err := "" },
    rbdNamesAfter := ["img"] }

/-- Removal request for an existing image with a pool parameter
supplied. -/
def rbdRemoveParams : CephRbd.Params :=
  { state := "absent", name := "img", pool := some "rbd", image := none,
    size := none, allow_shrink := false, image_format := none,
    image_shared := none }

/-- Environment where the image img exists. -/
def rbdExistsEnv : CephRbd.Env :=
  { rbdNames := ["img"], currentSize := 0, run := silentRun, rbdNamesAfter := ["img"] }

/-- Absent request on the shell pool module. -/
def poolAbsentParams : CephOsdPool.Params :=
  { state := "absent", name := "data", pgnum := none, pgpnum := none,
    ptype := "replicated", ruleset := none }

/-- Absent request on the client-library pool module for a pool that the
cluster of cloudPoolEnv does not hold. -/
def cloudPoolAbsentParams : CloudOsdPool.Params :=
  { state := "absent", name := "newpool", pgnum := none, pgpnum := none,
    ptype := "replicated", erasure_code_profile := none, ruleset := none }

/-- Absent request on the rbd module for an image that rbdExistsEnv does
not hold. -/
def rbdAbsentParams : CephRbd.Params :=
  { state := "absent", name := "img2", pool := none, image := none,
    size := none, allow_shrink := false, image_format := none,
    image_shared := none }

/-- Absent request on the rbd map module. -/
def mapAbsentParams : CephRbdMap.Params :=
  { state := "absent", name := "img", pool := none, id := none,
    options := none, read_only := none }

/-- Create request on the client-library pool module. -/
def cloudCreateParams : CloudOsdPool.Params :=
  { state := "present", name := "data", pgnum := some 128, pgpnum := none,
    ptype := "replicated", erasure_code_profile := none, ruleset := none }

/-- Client-library environment with an empty cluster whose every
json_command call fails with status 1. -/
def cloudFailEnv : CloudOsdPool.Env :=
  { initOk := true, connectOk := true, pools := [],
    jcmd := fun _ => { rc := 1, out := "", err := "" },
    loadsPools := fun _ => [], loadsGetInt := fun _ _ => 0,
    errorcode := fun _ => "EPERM" }

/-- Present request on the rbd module without a size parameter. -/
def rbdNoSizeParams : CephRbd.Params :=
  { state := "present", name := "img", pool := none, image := none,
    size := none, allow_shrink := false, image_format := none,
    image_shared := none }

/-- Present request on the client-library pool module without a pgnum, for
a pool the cluster of cloudPoolEnv does not hold. -/
def cloudNoPgnumParams : CloudOsdPool.Params :=
  { state := "present", name := "newpool", pgnum := none, pgpnum := none,
    ptype := "replicated", erasure_code_profile := none, ruleset := none }

/-- Create request on the client-library pool module with a ruleset but no
pgpnum. -/
def cloudRulesetParams : CloudOsdPool.Params :=
  { state := "present", name := "newpool", pgnum := some 128, pgpnum := none,
    ptype := "replicated", erasure_code_profile := none, ruleset := some "rs" }

/-- Present request with a ruleset but no pgpnum on the client-library
pool module for the existing pool of cloudPoolEnv, with no
placement-group parameters. -/
def cloudExistingRulesetParams : CloudOsdPool.Params :=
  { state := "present", name := "data", pgnum := none, pgpnum := none,
    ptype := "replicated", erasure_code_profile := none, ruleset := some "rs" }

/-- Command behaviour of a cluster in which every cache-tier step answers
with its expected confirmation text. -/
def tierMatchRun : String → CmdOut := fun c =>
  if c == "ceph osd tier add cold hot" then
    { rc := 0, out := "",
      err := "pool \x27hot\x27 is now (or already was) a tier of \x27cold\x27" }
  else if c == "ceph osd tier cache-mode hot writeback" then
    { rc := 0, out := "", err := "set cache_mode for pool \x27hot\x27 to writeback" }
  else
    { rc := 0, out := "", err := "there is now (or already was) no overlay for \x27hot\x27" }

/-- Absent request on the client-library pool module for the existing
pool data. -/
def cloudDeleteParams : CloudOsdPool.Params :=
  { state := "absent", name := "data", pgnum := none, pgpnum := none,
    ptype := "replicated", erasure_code_profile := none, ruleset := none }

/-- Client-library environment holding the pool data whose every
json_command call fails with status 1. -/
def cloudDeleteFailEnv : CloudOsdPool.Env :=
  { cloudFailEnv with pools := ["data"] }

/-- Client-library environment holding the pool data in which only the
attribute-set call fails. -/
def cloudSetFailEnv : CloudOsdPool.Env :=
  { initOk := true, connectOk := true, pools := ["data"],
    jcmd := fun a =>
      if a == CloudOsdPool.setArgs "data" "pg_num" 9 then
        { rc := 1, out := "", err := "Error EINVAL: bad" }
      else
        { rc := 0, out := "[]", err := "" },
    loadsPools := fun _ => [("data", 1)],
    loadsGetInt := fun _ _ => 8,
    errorcode := fun _ => "EPERM" }

/-- Client-library query environment whose json_command call fails with
status 1. -/
def cloudCephFailEnv : CloudCeph.Env :=
  { initOk := true, connectOk := true,
    jcmd := fun _ => { rc := 1, out := "", err := "" },
    loads := fun s => some s,
    errorcode := fun _ => "EPERM" }

/-- Shell query environment whose command fails with status 1 while still
printing parseable output. -/
def shellCephFailEnv : CephMod.Env :=
  { run := fun _ => { rc := 1, out := "\x7b\x7d", err := "" },
    loads := fun s => some s }

/-- Environment with no existing image in which the create command
succeeds and the re-query then lists the image. -/
def rbdCreateEnv : CephRbd.Env :=
  { rbdNames := [], currentSize := 0, run := silentRun, rbdNamesAfter := ["img"] }

/-- Environment with no existing image in which every command fails with
status 1 and the re-query still lists nothing. -/
def rbdCreateFailEnv : CephRbd.Env :=
  { rbdNames := [], currentSize := 0, run := failingRun, rbdNamesAfter := [] }

/-- Environment with no existing mapping in which every command fails with
status 1. -/
def mapFailEnv : CephRbdMap.Env :=
  { mappings := [], run := failingRun, mappingsAfter := [] }

/-- Environment where img is mapped to dev0 and the re-query after the
unmap shows nothing mapped. -/
def mapMappedEnv : CephRbdMap.Env :=
  { mappings := [("img", "dev0")], run := silentRun, mappingsAfter := [] }

/-- Present request on the client-library pool module requesting only
pgpnum=0. -/
def cloudPgpnumZeroParams : CloudOsdPool.Params :=
  { state := "present", name := "data", pgnum := none, pgpnum := some 0,
    ptype := "replicated", erasure_code_profile := none, ruleset := none }

/-- Like cloudPgpnumZeroParams but requesting 5 placement groups. -/
def cloudPgpnum5Params : CloudOsdPool.Params :=
  { cloudPgpnumZeroParams with pgpnum := some 5 }

/-- Like cloudPgpnumZeroParams but requesting 8 placement groups. -/
def cloudPgpnum8Params : CloudOsdPool.Params :=
  { cloudPgpnumZeroParams with pgpnum := some 8 }

/-- Like cloudPgpnumZeroParams but requesting 9 placement groups. -/
def cloudPgpnum9Params : CloudOsdPool.Params :=
  { cloudPgpnumZeroParams with pgpnum := some 9 }

/-- Client-library environment like cloudPoolEnv whose set call answers
with the pgp_num confirmation text. -/
def cloudPoolPgpEnv : CloudOsdPool.Env :=
  { initOk := true, connectOk := true, pools := ["data"],
    jcmd := fun _ => { rc := 0, out := "[]", err := "set pool 1 pgp_num to 9" },
    loadsPools := fun _ => [("data", 1)],
    loadsGetInt := fun _ _ => 8,
    errorcode := fun _ => "EPERM" }

/-! Theorems settling the claims. -/

/-- C10: the read-only query modules (cmd=status and cmd=quorum_status)
unconditionally report changed=true on every successful invocation, in
both the shell-command and the client-library variants: whenever either
main reaches exit_json, the result record carries changed=true. -/
theorem c10_confirmed :
    (∀ c env r t, CephMod.main c env = (MExit.exitJson r, t) → r.changed = true) ∧
    (∀ c env r, (CloudCeph.main c env).fin = MExit.exitJson r → r.changed = true) := by
  constructor
  · intro c env r t h
    unfold CephMod.main at h
    iterate 8 (all_goals (try (dsimp only at h)); all_goals (try (split at h)))
    all_goals simp_all
    all_goals (rcases h with ⟨h1, h2⟩; subst h1; rfl)
  · intro c env r h
    unfold CloudCeph.main at h
    iterate 8 (all_goals (try (dsimp only at h)); all_goals (try (split at h)))
    all_goals simp_all
    all_goals (subst h; rfl)

/-- Witness for C10: concrete successful status queries of both variants
report changed=true. -/
theorem c10_witness :
    ({ cmd := "ceph status --format=json", stderr := "", rc := 0, changed := true,
       ceph_status := some "\x7b\x7d" } : CephMod.Res).changed = true ∧
    ({ cmd := "ceph status --format=json", rc := 0, changed := true,
       ceph_status := some "\x7b\x7d" } : CloudCeph.Res).changed = true :=
  ⟨c10_confirmed.1 "status" shellCephEnv _ ["ceph status --format=json"] rfl,
   c10_confirmed.2 "status" cloudCephEnv _ rfl⟩

/-- C8: in both client-library modules every exit path on which the
cluster connection was opened (connect succeeded) calls
cluster_handle.shutdown before the invocation terminates: the whole
dispatch body runs inside a try block whose finally clause shuts the
handle down, and this covers normal exits, fail_json exits and unhandled
exceptions alike. On the two failure exits before connect succeeds no
connection was ever opened. The shell-variant modules hold their handle in
a Python with block, whose scope exit plays the same role. -/
theorem c8_confirmed :
    (∀ c env, (CloudCeph.main c env).connected = true →
      (CloudCeph.main c env).shutdownCalled = true) ∧
    (∀ p env, (CloudOsdPool.main p env).1.connected = true →
      (CloudOsdPool.main p env).1.shutdownCalled = true) := by
  constructor
  · intro c env h
    unfold CloudCeph.main at h ⊢
    iterate 8 (all_goals (try (dsimp only at h ⊢)); all_goals (try split))
    all_goals simp_all
  · intro p env h
    unfold CloudOsdPool.main at h ⊢
    iterate 8 (all_goals (try (dsimp only at h ⊢)); all_goals (try split))
    all_goals simp_all

/-- Witness for C8: on a concrete invocation of each client-library module
that opens a connection, shutdown is called. -/
theorem c8_witness :
    (CloudCeph.main "status" cloudCephEnv).shutdownCalled = true ∧
    (CloudOsdPool.main cloudPgnum9Params cloudPoolEnv).1.shutdownCalled = true :=
  ⟨c8_confirmed.1 "status" cloudCephEnv rfl,
   c8_confirmed.2 cloudPgnum9Params cloudPoolEnv rfl⟩

/-- C9: two public-interface paths of the rbd image module raise an
unhandled name error instead of producing any result record: a
state=present resize whose captured output begins with the carriage
return followed by Resizing image evaluates changed against the undefined
variable stderr, and a state=absent removal of an existing image with a
pool parameter supplied appends to the undefined variable cmd before any
command is run (the command trace of that path is empty). -/
theorem c9_confirmed :
    (∀ p env, p.state = "present" → truthyInt p.size = true →
      env.rbdNames.contains p.name = true →
      (p.size.getD 0 * 1024 * 1024 < env.currentSize → p.allow_shrink = true) →
      (p.size.getD 0 * 1024 * 1024 == env.currentSize) = false →
      (∀ c, pyStartsWith (rstripCRLF (env.run c).out) "\rResizing image" = true) →
      (CephRbd.main p env).1 = MExit.raised "NameError: stderr") ∧
    (∀ p env, p.state = "absent" → env.rbdNames.contains p.name = true →
      truthyStr p.pool = true →
      CephRbd.main p env = (MExit.raised "NameError: cmd", [])) := by
  constructor
  · intro p env hs hsize hex hshrink hneq hout
    unfold CephRbd.main
    rw [hs]
    simp only [beq_self_eq_true, if_true, hex, hsize, Bool.not_true, Bool.false_eq_true,
      if_false, ite_true, ite_false]
    rw [if_neg (by
      intro hc
      exact absurd (hshrink hc.1) (by simp [hc.2]))]
    simp only [hneq, Bool.false_eq_true, if_false, ite_false]
    rw [if_pos (hout _)]
  · intro p env hs hex hpool
    have hmem := hex
    simp at hmem
    unfold CephRbd.main
    rw [hs]
    simp [hex, hpool, hmem]

/-- C2 counterexample: the claim that state=absent on a non-existing
resource issues no external mutating call and reports changed=false is
false for the cache-tier kind. In a cluster holding both pools but no
tier relationship between them (its removal commands answer with their
already-was text), the module still issues the remove-overlay and remove
commands and even reports changed=true. -/
theorem c2_counterexample :
    CephOsdTier.main tierAbsentParams ["cold", "hot"] tierAbsentRun =
      (MExit.exitJson
        { storage_pool := "cold"
          cache_pool := "hot"
          rc := some 0
          cmd := some "ceph osd tier remove cold hot"
          stdout := some ""
          stderr := some "pool \x27hot\x27 is now (or already was) not a tier of \x27cold\x27"
          changed := true },
       ["ceph osd tier remove-overlay hot", "ceph osd tier remove cold hot"]) := rfl

/-- C2 amended: for the pool (both variants), image and image-mapping
kinds, state=absent on a non-existing resource issues no mutating command
and exits normally with changed=false; the cache-tier module instead
always issues its two removal commands under state=absent, relying on
their idempotence. -/
theorem c2_amended :
    (∀ p pools run, p.state = "absent" → pools.contains p.name = false →
      CephOsdPool.main p pools run = (MExit.exitJson { name := p.name }, [])) ∧
    (∀ p env, p.state = "absent" → env.pools.contains p.name = false →
      env.initOk = true → env.connectOk = true →
      CloudOsdPool.main p env =
        ({ fin := MExit.exitJson { name := p.name }
           connected := true
           shutdownCalled := true }, [])) ∧
    (∀ p env, p.state = "absent" → env.rbdNames.contains p.name = false →
      CephRbd.main p env = (MExit.exitJson { name := p.name }, [])) ∧
    (∀ p env, p.state = "absent" → (env.mappings.map Prod.fst).contains p.name = false →
      CephRbdMap.main p env = (MExit.exitJson { name := p.name }, [])) := by
  refine ⟨?_, ?_, ?_, ?_⟩
  · intro p pools run hs hc
    have hcm := hc
    simp at hcm
    unfold CephOsdPool.main
    rw [hs]
    simp [hc, hcm]
  · intro p env hs hc hi hco
    have hcm := hc
    simp at hcm
    unfold CloudOsdPool.main
    rw [hs]
    simp [hc, hcm, hi, hco]
  · intro p env hs hc
    have hcm := hc
    simp at hcm
    unfold CephRbd.main
    rw [hs]
    simp [hc, hcm]
  · intro p env hs hc
    have hcm := hc
    simp at hcm
    unfold CephRbdMap.main
    rw [hs]
    simp [hc, hcm]

/-- Witness for C2 amended: concrete absent requests on non-existing
resources of the four no-op kinds. -/
theorem c2_witness :
    CephOsdPool.main poolAbsentParams [] silentRun =
      (MExit.exitJson { name := "data" }, []) ∧
    CloudOsdPool.main cloudPoolAbsentParams cloudPoolEnv =
      ({ fin := MExit.exitJson { name := "newpool" }
         connected := true
         shutdownCalled := true }, []) ∧
    CephRbd.main rbdAbsentParams rbdExistsEnv =
      (MExit.exitJson { name := "img2" }, []) ∧
    CephRbdMap.main mapAbsentParams mapEnvUnmapped =
      (MExit.exitJson { name := "img" }, []) := by
  refine ⟨?_, ?_, ?_, ?_⟩
  · exact c2_amended.1 poolAbsentParams [] silentRun rfl rfl
  · exact c2_amended.2.1 cloudPoolAbsentParams cloudPoolEnv rfl rfl rfl rfl
  · exact c2_amended.2.2.1 rbdAbsentParams rbdExistsEnv rfl rfl
  · exact c2_amended.2.2.2 mapAbsentParams mapEnvUnmapped rfl rfl

/-- C3 counterexample: the claim that a non-zero status terminates every
sub-action of every module as an immediate failure is false for the
shell-command modules. A pool creation whose command exits with status 1
still proceeds to classification and terminates through exit_json (a
normal, non-failure exit) with the status merely recorded in the result. -/
theorem c3_counterexample :
    CephOsdPool.main poolCreateParams [] failingRun =
      (MExit.exitJson
        { name := "data"
          rc := some 1
          cmd := some "ceph osd pool create data 128"
          stdout := some ""
          stderr := some "Error EPERM: boom"
          changed := false },
       ["ceph osd pool create data 128"]) := rfl

set_option maxHeartbeats 2000000 in
/-- C3 amended: only the client-library modules fail immediately on a
non-zero status from any of their sub-actions (create, delete, the
current-value read, the pool listing and the status query carry the
status code and the errno-derived text; the attribute-set call carries
the raw diagnostic text), with nothing issued past the failed call; the
shell-command modules (pool, rbd, rbd map, tier, query) never inspect the
status: every normal exit of theirs records the status of the command it
ran (of the last command, for the tier module) in the result. -/
theorem c3_amended :
    (∀ p env, p.state = "present" → env.pools.contains p.name = false →
      env.initOk = true → env.connectOk = true →
      truthyInt p.pgnum = true →
      (truthyStr p.ruleset && ! truthyInt p.pgpnum) = false →
      (p.ptype == "erasure" && ! truthyInt p.pgpnum) = false →
      ((env.jcmd (CloudOsdPool.createArgs p)).rc != 0) = true →
      CloudOsdPool.main p env =
        ({ fin := MExit.failJson (s!"Error: {(env.jcmd (CloudOsdPool.createArgs p)).rc} "
             ++ env.errorcode (env.jcmd (CloudOsdPool.createArgs p)).rc)
           connected := true
           shutdownCalled := true }, [CloudOsdPool.createArgs p])) ∧
    (∀ p env, p.state = "absent" → env.pools.contains p.name = true →
      env.initOk = true → env.connectOk = true →
      ((env.jcmd (CloudOsdPool.deleteArgs p.name)).rc != 0) = true →
      CloudOsdPool.main p env =
        ({ fin := MExit.failJson (s!"Error: {(env.jcmd (CloudOsdPool.deleteArgs p.name)).rc} "
             ++ env.errorcode (env.jcmd (CloudOsdPool.deleteArgs p.name)).rc)
           connected := true
           shutdownCalled := true }, [CloudOsdPool.deleteArgs p.name])) ∧
    (∀ p env k e, p.state = "present" → env.pools.contains p.name = true →
      env.initOk = true → env.connectOk = true →
      p.pgnum = some k → (k != 0) = true →
      env.jcmd (CloudOsdPool.getArgs p.name "pg_num") = e →
      (e.rc != 0) = true →
      CloudOsdPool.main p env =
        ({ fin := MExit.failJson (s!"Error: {e.rc} " ++ env.errorcode e.rc)
           connected := true
           shutdownCalled := true }, [CloudOsdPool.getArgs p.name "pg_num"])) ∧
    (∀ p env res v newVal q,
      ((env.jcmd CloudOsdPool.lspoolsArgs).rc != 0) = false →
      (env.loadsPools (env.jcmd CloudOsdPool.lspoolsArgs).out).find?
        (fun x => x.fst == p.name) = some q →
      ((env.jcmd (CloudOsdPool.setArgs p.name v newVal)).rc != 0) = true →
      CloudOsdPool.osd_pool_set p env res v newVal =
        (MExit.failJson (env.jcmd (CloudOsdPool.setArgs p.name v newVal)).err,
         [CloudOsdPool.lspoolsArgs, CloudOsdPool.setArgs p.name v newVal])) ∧
    (∀ p env res v newVal e,
      env.jcmd CloudOsdPool.lspoolsArgs = e → (e.rc != 0) = true →
      CloudOsdPool.osd_pool_set p env res v newVal =
        (MExit.failJson (s!"Error: {e.rc} " ++ env.errorcode e.rc),
         [CloudOsdPool.lspoolsArgs])) ∧
    (∀ c env args e, env.initOk = true → env.connectOk = true →
      CloudCeph.DICTS c = some args →
      env.jcmd args = e → (e.rc != 0) = true →
      CloudCeph.main c env =
        { fin := MExit.failJson (s!"Error: {e.rc} " ++ env.errorcode e.rc)
          connected := true
          shutdownCalled := true }) ∧
    (∀ p pools run r cmd,
      CephOsdPool.main p pools run = (MExit.exitJson r, [cmd]) →
      r.rc = some (run cmd).rc) ∧
    (∀ p env r cmd,
      CephRbd.main p env = (MExit.exitJson r, [cmd]) →
      r.rc = some (env.run cmd).rc) ∧
    (∀ p env r cmd,
      CephRbdMap.main p env = (MExit.exitJson r, [cmd]) →
      r.rc = some (env.run cmd).rc) ∧
    (∀ p pools run r t,
      CephOsdTier.main p pools run = (MExit.exitJson r, t) →
      ∃ c, t.getLast? = some c ∧ r.rc = some (run c).rc) ∧
    (∀ c env r cmd,
      CephMod.main c env = (MExit.exitJson r, [cmd]) →
      r.rc = (env.run cmd).rc) := by
  refine ⟨?_, ?_, ?_, ?_, ?_, ?_, ?_, ?_, ?_, ?_, ?_⟩
  · intro p env hs hc hi hco hpg hrule hera hrc
    have hcm := hc
    simp at hcm
    unfold CloudOsdPool.main CloudOsdPool.osd_pool_create
    rw [hs]
    simp [hc, hcm, hi, hco, hpg, hrule, hera, hrc]
  · intro p env hs hc hi hco hrc
    have hcm := hc
    simp at hcm
    unfold CloudOsdPool.main CloudOsdPool.osd_pool_delete
    rw [hs]
    simp [hc, hcm, hi, hco, hrc]
  · intro p env k e hs hc hi hco hk hk0 he hrc
    have hcm := hc
    simp at hcm
    unfold CloudOsdPool.main CloudOsdPool.osd_pool_modify CloudOsdPool.osd_pool_get
    rw [hs]
    simp [truthyInt, hc, hcm, hi, hco, hk, hk0, he, hrc]
  · intro p env res v newVal q hrcl hfind hrcs
    unfold CloudOsdPool.osd_pool_set CloudOsdPool.osd_lspools
    simp [hrcl, hfind, hrcs]
  · intro p env res v newVal e he hrc
    unfold CloudOsdPool.osd_pool_set CloudOsdPool.osd_lspools
    simp [he, hrc]
  · intro c env args e hi hco hd he hrc
    unfold CloudCeph.main
    simp [hi, hco, hd, he, hrc]
  · intro p pools run r cmd h
    unfold CephOsdPool.main at h
    iterate 8 (all_goals (try (dsimp only at h)); all_goals (try (split at h)))
    all_goals simp_all
    all_goals (rcases h with ⟨h1, h2⟩; subst h1; subst h2; rfl)
  · intro p env r cmd h
    unfold CephRbd.main at h
    iterate 8 (all_goals (try (dsimp only at h)); all_goals (try (split at h)))
    all_goals simp_all
    all_goals (rcases h with ⟨h1, h2⟩; subst h1; subst h2; rfl)
  · intro p env r cmd h
    unfold CephRbdMap.main at h
    iterate 8 (all_goals (try (dsimp only at h)); all_goals (try (split at h)))
    all_goals simp_all
    all_goals (rcases h with ⟨h1, h2⟩; subst h1; subst h2; rfl)
  · intro p pools run r t h
    unfold CephOsdTier.main CephOsdTier.shUpd at h
    iterate 8 (all_goals (try (dsimp only at h)); all_goals (try (split at h)))
    all_goals simp_all
    all_goals (rcases h with ⟨h1, h2⟩; subst h1; subst h2; exact ⟨_, rfl, rfl⟩)
  · intro c env r cmd h
    unfold CephMod.main at h
    iterate 8 (all_goals (try (dsimp only at h)); all_goals (try (split at h)))
    all_goals simp_all
    all_goals (rcases h with ⟨h1, h2⟩; subst h1; subst h2; rfl)

/-- Witness for C3 amended: concrete failing calls on every client-library
sub-action fail with the documented message and trace, and concrete
status-1 commands on every shell module still exit normally with the
status recorded in the result. -/
theorem c3_witness :
    CloudOsdPool.main cloudCreateParams cloudFailEnv =
      ({ fin := MExit.failJson "Error: 1 EPERM"
         connected := true
         shutdownCalled := true }, [CloudOsdPool.createArgs cloudCreateParams]) ∧
    CloudOsdPool.main cloudDeleteParams cloudDeleteFailEnv =
      ({ fin := MExit.failJson "Error: 1 EPERM"
         connected := true
         shutdownCalled := true }, [CloudOsdPool.deleteArgs "data"]) ∧
    CloudOsdPool.main cloudPgnum5Params cloudDeleteFailEnv =
      ({ fin := MExit.failJson "Error: 1 EPERM"
         connected := true
         shutdownCalled := true }, [CloudOsdPool.getArgs "data" "pg_num"]) ∧
    CloudOsdPool.osd_pool_set cloudPgnum9Params cloudSetFailEnv { name := "data" }
        "pg_num" 9 =
      (MExit.failJson "Error EINVAL: bad",
       [CloudOsdPool.lspoolsArgs, CloudOsdPool.setArgs "data" "pg_num" 9]) ∧
    CloudOsdPool.osd_pool_set cloudPgnum9Params cloudFailEnv { name := "data" }
        "pg_num" 9 =
      (MExit.failJson "Error: 1 EPERM", [CloudOsdPool.lspoolsArgs]) ∧
    CloudCeph.main "status" cloudCephFailEnv =
      { fin := MExit.failJson "Error: 1 EPERM"
        connected := true
        shutdownCalled := true } ∧
    ({ name := "data"
       rc := some 1
       cmd := some "ceph osd pool create data 128"
       stdout := some ""
       stderr := some "Error EPERM: boom"
       changed := false } : CephOsdPool.Res).rc
      = some (failingRun "ceph osd pool create data 128").rc ∧
    ({ name := "img"
       rc := some 1
       cmd := some "rbd create img --size 5"
       stdout := some ""
       stderr := some ""
       changed := false } : CephRbd.Res).rc
      = some (rbdCreateFailEnv.run "rbd create img --size 5").rc ∧
    ({ name := "img"
       rc := some 1
       cmd := some "rbd map img"
       stdout := some ""
       stderr := some ""
       rbd_mappings := some []
       changed := false } : CephRbdMap.Res).rc
      = some (mapFailEnv.run "rbd map img").rc ∧
    (∃ c, ["ceph osd tier add cold hot"].getLast? = some c ∧
      ({ storage_pool := "cold"
         cache_pool := "hot"
         rc := some 1
         cmd := some "ceph osd tier add cold hot"
         stdout := some ""
         stderr := some "Error EPERM: boom"
         changed := false } : CephOsdTier.Res).rc = some (failingRun c).rc) ∧
    ({ cmd := "ceph status --format=json"
       stderr := ""
       rc := 1
       changed := true
       ceph_status := some "\x7b\x7d" } : CephMod.Res).rc
      = (shellCephFailEnv.run "ceph status --format=json").rc := by
  refine ⟨?_, ?_, ?_, ?_, ?_, ?_, ?_, ?_, ?_, ?_, ?_⟩
  · exact c3_amended.1 cloudCreateParams cloudFailEnv rfl rfl rfl rfl rfl rfl rfl rfl
  · exact c3_amended.2.1 cloudDeleteParams cloudDeleteFailEnv rfl rfl rfl rfl rfl
  · exact c3_amended.2.2.1 cloudPgnum5Params cloudDeleteFailEnv 5 _ rfl rfl rfl rfl rfl rfl
      rfl rfl
  · exact c3_amended.2.2.2.1 cloudPgnum9Params cloudSetFailEnv { name := "data" } "pg_num" 9
      ("data", 1) rfl rfl rfl
  · exact c3_amended.2.2.2.2.1 cloudPgnum9Params cloudFailEnv { name := "data" } "pg_num" 9
      _ rfl rfl
  · exact c3_amended.2.2.2.2.2.1 "status" cloudCephFailEnv
      [("prefix", "status"), ("format", "json")] _ rfl rfl rfl rfl rfl
  · exact c3_amended.2.2.2.2.2.2.1 poolCreateParams [] failingRun _
      "ceph osd pool create data 128" rfl
  · exact c3_amended.2.2.2.2.2.2.2.1 rbdResizeParams rbdCreateFailEnv _
      "rbd create img --size 5" rfl
  · exact c3_amended.2.2.2.2.2.2.2.2.1 mapImgParams mapFailEnv _ "rbd map img" rfl
  · exact c3_amended.2.2.2.2.2.2.2.2.2.1 tierPresentParams ["cold", "hot"] failingRun _
      ["ceph osd tier add cold hot"] rfl
  · exact c3_amended.2.2.2.2.2.2.2.2.2.2 "status" shellCephFailEnv _
      "ceph status --format=json" rfl

/-- C4 counterexample: the claim that remaining cache-tier steps are
skipped only on an explicit fatal condition (non-zero status with an
unrecoverable error code) is false. With both pools existing, an attach
step that succeeds with status zero but answers with unconfirmed text
makes the module skip the cache-mode and overlay steps entirely: only one
command is issued and the invocation ends normally with changed=false. -/
theorem c4_counterexample :
    CephOsdTier.main tierPresentParams ["cold", "hot"] unconfirmedRun =
      (MExit.exitJson
        { storage_pool := "cold"
          cache_pool := "hot"
          rc := some 0
          cmd := some "ceph osd tier add cold hot"
          stdout := some ""
          stderr := some "unexpected"
          changed := false },
       ["ceph osd tier add cold hot"]) := rfl

/-- C4 amended: in the cache-tier establishment sequence a later step is
issued exactly when the previous step's rstripped diagnostic output
matched its expected confirmation text; the exit status of a step is
never inspected, and the trace only ever extends forward (attach, then
cache-mode, then one overlay command), so steps already applied are never
rolled back. -/
theorem c4_amended :
    ∀ p pools run, p.state = "present" →
      pools.contains p.storage_pool = true →
      pools.contains p.cache_pool = true →
      (CephOsdTier.main p pools run).2 =
        (let sp := p.storage_pool
         let cp := p.cache_pool
         let aCmd := if p.force_nonempty then
             s!"ceph osd tier add {sp} {cp} --force-nonempty"
           else
             s!"ceph osd tier add {sp} {cp}"
         let m1 := s!"pool \x27{cp}\x27 is now (or already was) a tier of \x27{sp}\x27"
             == rstripCRLF (run aCmd).err
         let modeCmd := s!"ceph osd tier cache-mode {cp} {p.cache_mode}"
         let m2 := s!"set cache_mode for pool \x27{cp}\x27 to {p.cache_mode}"
             == rstripCRLF (run modeCmd).err
         let oCmd := if p.set_overlay then
             s!"ceph osd tier set-overlay {sp} {cp}"
           else
             s!"ceph osd tier remove-overlay {cp}"
         if m1 then (if m2 then [aCmd, modeCmd, oCmd] else [aCmd, modeCmd])
         else [aCmd]) := by
  intro p pools run hs h2 h3
  unfold CephOsdTier.main CephOsdTier.shUpd
  rw [hs]
  have h2m := h2
  simp at h2m
  have h3m := h3
  simp at h3m
  by_cases hso : p.set_overlay <;>
    simp [h2m, h3m, hso, apply_ite Prod.snd]

/-- Witness for C4 amended: with unconfirmed attach output only the attach
command is issued, and with matching outputs all three steps are
issued. -/
theorem c4_witness :
    (CephOsdTier.main tierPresentParams ["cold", "hot"] unconfirmedRun).2 =
      ["ceph osd tier add cold hot"] ∧
    (CephOsdTier.main tierPresentParams ["cold", "hot"] tierMatchRun).2 =
      ["ceph osd tier add cold hot", "ceph osd tier cache-mode hot writeback",
       "ceph osd tier remove-overlay hot"] := by
  constructor
  · exact c4_amended tierPresentParams ["cold", "hot"] unconfirmedRun rfl rfl rfl
  · exact c4_amended tierPresentParams ["cold", "hot"] tierMatchRun rfl rfl rfl

/-- C5 counterexample: the claim that requesting a placement-group count
lower than the current value always fails is defeated by Python
truthiness. In cloudPoolEnv the pool data exists with a current pg_num of
8; requesting pgnum=0 (lower than 8) is treated as if the parameter were
absent: the invocation issues nothing, does not fail, and exits normally
with changed=false, in silent contradiction with the claim. -/
theorem c5_counterexample :
    CloudOsdPool.main cloudPgnumZeroParams cloudPoolEnv =
      ({ fin := MExit.exitJson { name := "data" }
         connected := true
         shutdownCalled := true }, []) := rfl

/-- C5 amended: for a nonzero requested count the claim holds on the
client-library pool module for both ordered attributes, pg_num and
pgp_num: a request lower than the current value fails with the explicit
message and issues no set call (only the read of the current value
precedes the failure), an equal request is a successful no-op without a
set call, and a strictly greater request issues exactly one set call; a
requested count of zero is treated as not supplied and ignored. -/
theorem c5_amended :
    (∀ p env k cur, p.state = "present" → env.pools.contains p.name = true →
      env.initOk = true → env.connectOk = true →
      p.pgnum = some k → (k != 0) = true →
      ((env.jcmd (CloudOsdPool.getArgs p.name "pg_num")).rc != 0) = false →
      env.loadsGetInt (env.jcmd (CloudOsdPool.getArgs p.name "pg_num")).out "pg_num" = cur →
      k < cur →
      CloudOsdPool.main p env =
        ({ fin := MExit.failJson s!"specified pg_num {k} <= current {cur}"
           connected := true
           shutdownCalled := true }, [CloudOsdPool.getArgs p.name "pg_num"])) ∧
    (∀ p env k cur, p.state = "present" → env.pools.contains p.name = true →
      env.initOk = true → env.connectOk = true →
      p.pgnum = some k → (k != 0) = true → p.pgpnum = none →
      ((env.jcmd (CloudOsdPool.getArgs p.name "pg_num")).rc != 0) = false →
      env.loadsGetInt (env.jcmd (CloudOsdPool.getArgs p.name "pg_num")).out "pg_num" = cur →
      k = cur →
      CloudOsdPool.main p env =
        ({ fin := MExit.exitJson { name := p.name }
           connected := true
           shutdownCalled := true }, [CloudOsdPool.getArgs p.name "pg_num"])) ∧
    (∀ p env k cur q, p.state = "present" → env.pools.contains p.name = true →
      env.initOk = true → env.connectOk = true →
      p.pgnum = some k → (k != 0) = true → p.pgpnum = none →
      ((env.jcmd (CloudOsdPool.getArgs p.name "pg_num")).rc != 0) = false →
      env.loadsGetInt (env.jcmd (CloudOsdPool.getArgs p.name "pg_num")).out "pg_num" = cur →
      k > cur →
      ((env.jcmd CloudOsdPool.lspoolsArgs).rc != 0) = false →
      (env.loadsPools (env.jcmd CloudOsdPool.lspoolsArgs).out).find?
        (fun x => x.fst == p.name) = some q →
      ((env.jcmd (CloudOsdPool.setArgs p.name "pg_num" k)).rc != 0) = false →
      CloudOsdPool.main p env =
        ({ fin := MExit.exitJson
             { name := p.name
               changed := pyStartsWith ((env.jcmd (CloudOsdPool.setArgs p.name "pg_num" k)).err)
                 (CloudOsdPool.setExpected q.snd "pg_num")
               outs := some ((env.jcmd (CloudOsdPool.setArgs p.name "pg_num" k)).err) }
           connected := true
           shutdownCalled := true },
         [CloudOsdPool.getArgs p.name "pg_num", CloudOsdPool.lspoolsArgs,
          CloudOsdPool.setArgs p.name "pg_num" k])) ∧
    (∀ p env k cur, p.state = "present" → env.pools.contains p.name = true →
      env.initOk = true → env.connectOk = true →
      p.pgnum = none → p.pgpnum = some k → (k != 0) = true →
      ((env.jcmd (CloudOsdPool.getArgs p.name "pgp_num")).rc != 0) = false →
      env.loadsGetInt (env.jcmd (CloudOsdPool.getArgs p.name "pgp_num")).out "pgp_num" = cur →
      k < cur →
      CloudOsdPool.main p env =
        ({ fin := MExit.failJson s!"specified pgp_num {k} <= current {cur}"
           connected := true
           shutdownCalled := true }, [CloudOsdPool.getArgs p.name "pgp_num"])) ∧
    (∀ p env k cur, p.state = "present" → env.pools.contains p.name = true →
      env.initOk = true → env.connectOk = true →
      p.pgnum = none → p.pgpnum = some k → (k != 0) = true →
      ((env.jcmd (CloudOsdPool.getArgs p.name "pgp_num")).rc != 0) = false →
      env.loadsGetInt (env.jcmd (CloudOsdPool.getArgs p.name "pgp_num")).out "pgp_num" = cur →
      k = cur →
      CloudOsdPool.main p env =
        ({ fin := MExit.exitJson { name := p.name }
           connected := true
           shutdownCalled := true }, [CloudOsdPool.getArgs p.name "pgp_num"])) ∧
    (∀ p env k cur q, p.state = "present" → env.pools.contains p.name = true →
      env.initOk = true → env.connectOk = true →
      p.pgnum = none → p.pgpnum = some k → (k != 0) = true →
      ((env.jcmd (CloudOsdPool.getArgs p.name "pgp_num")).rc != 0) = false →
      env.loadsGetInt (env.jcmd (CloudOsdPool.getArgs p.name "pgp_num")).out "pgp_num" = cur →
      k > cur →
      ((env.jcmd CloudOsdPool.lspoolsArgs).rc != 0) = false →
      (env.loadsPools (env.jcmd CloudOsdPool.lspoolsArgs).out).find?
        (fun x => x.fst == p.name) = some q →
      ((env.jcmd (CloudOsdPool.setArgs p.name "pgp_num" k)).rc != 0) = false →
      CloudOsdPool.main p env =
        ({ fin := MExit.exitJson
             { name := p.name
               changed := pyStartsWith ((env.jcmd (CloudOsdPool.setArgs p.name "pgp_num" k)).err)
                 (CloudOsdPool.setExpected q.snd "pgp_num")
               outs := some ((env.jcmd (CloudOsdPool.setArgs p.name "pgp_num" k)).err) }
           connected := true
           shutdownCalled := true },
         [CloudOsdPool.getArgs p.name "pgp_num", CloudOsdPool.lspoolsArgs,
          CloudOsdPool.setArgs p.name "pgp_num" k])) := by
  refine ⟨?_, ?_, ?_, ?_, ?_, ?_⟩
  · intro p env k cur hs hc hi hco hk hk0 hrc hcur hlt
    have hcm := hc
    simp at hcm
    have hne : (k == cur) = false := by
      simp only [beq_eq_false_iff_ne, ne_eq]
      omega
    have hngt : ¬ (k > cur) := by omega
    unfold CloudOsdPool.main CloudOsdPool.osd_pool_modify CloudOsdPool.osd_pool_get
    rw [hs]
    simp [truthyInt, hc, hcm, hi, hco, hk, hk0, hrc, hcur, hne, hngt]
  · intro p env k cur hs hc hi hco hk hk0 hkp hrc hcur heq
    have hcm := hc
    simp at hcm
    have he : (k == cur) = true := by simp [heq]
    unfold CloudOsdPool.main CloudOsdPool.osd_pool_modify CloudOsdPool.osd_pool_get
    rw [hs]
    simp [truthyInt, hc, hcm, hi, hco, hk, hk0, hkp, hrc, hcur, he]
  · intro p env k cur q hs hc hi hco hk hk0 hkp hrc hcur hgt hrcl hfind hrcs
    have hcm := hc
    simp at hcm
    have hne : (k == cur) = false := by
      simp only [beq_eq_false_iff_ne, ne_eq]
      omega
    unfold CloudOsdPool.main CloudOsdPool.osd_pool_modify CloudOsdPool.osd_pool_get
      CloudOsdPool.osd_pool_set CloudOsdPool.osd_lspools
    rw [hs]
    simp [truthyInt, hc, hcm, hi, hco, hk, hk0, hkp, hrc, hcur, hne, hgt, hrcl,
      hfind, hrcs]
  · intro p env k cur hs hc hi hco hkn hk hk0 hrc hcur hlt
    have hcm := hc
    simp at hcm
    have hne : (k == cur) = false := by
      simp only [beq_eq_false_iff_ne, ne_eq]
      omega
    have hngt : ¬ (k > cur) := by omega
    unfold CloudOsdPool.main CloudOsdPool.osd_pool_modify CloudOsdPool.osd_pool_get
    rw [hs]
    simp [truthyInt, hc, hcm, hi, hco, hkn, hk, hk0, hrc, hcur, hne, hngt]
  · intro p env k cur hs hc hi hco hkn hk hk0 hrc hcur heq
    have hcm := hc
    simp at hcm
    have he : (k == cur) = true := by simp [heq]
    unfold CloudOsdPool.main CloudOsdPool.osd_pool_modify CloudOsdPool.osd_pool_get
    rw [hs]
    simp [truthyInt, hc, hcm, hi, hco, hkn, hk, hk0, hrc, hcur, he]
  · intro p env k cur q hs hc hi hco hkn hk hk0 hrc hcur hgt hrcl hfind hrcs
    have hcm := hc
    simp at hcm
    have hne : (k == cur) = false := by
      simp only [beq_eq_false_iff_ne, ne_eq]
      omega
    unfold CloudOsdPool.main CloudOsdPool.osd_pool_modify CloudOsdPool.osd_pool_get
      CloudOsdPool.osd_pool_set CloudOsdPool.osd_lspools
    rw [hs]
    simp [truthyInt, hc, hcm, hi, hco, hkn, hk, hk0, hrc, hcur, hne, hgt, hrcl,
      hfind, hrcs]

/-- Witness for C5 amended: against a pool whose current pg_num and
pgp_num are 8, requesting 5 fails with the explicit message and no set
call, requesting 8 is a successful no-op, and requesting 9 issues the set
call and confirms the change, for each of the two attributes. -/
theorem c5_witness :
    CloudOsdPool.main cloudPgnum5Params cloudPoolEnv =
      ({ fin := MExit.failJson "specified pg_num 5 <= current 8"
         connected := true
         shutdownCalled := true }, [CloudOsdPool.getArgs "data" "pg_num"]) ∧
    CloudOsdPool.main cloudPgnum8Params cloudPoolEnv =
      ({ fin := MExit.exitJson { name := "data" }
         connected := true
         shutdownCalled := true }, [CloudOsdPool.getArgs "data" "pg_num"]) ∧
    CloudOsdPool.main cloudPgnum9Params cloudPoolEnv =
      ({ fin := MExit.exitJson
           { name := "data"
             changed := true
             outs := some "set pool 1 pg_num to 9" }
         connected := true
         shutdownCalled := true },
       [CloudOsdPool.getArgs "data" "pg_num", CloudOsdPool.lspoolsArgs,
        CloudOsdPool.setArgs "data" "pg_num" 9]) ∧
    CloudOsdPool.main cloudPgpnum5Params cloudPoolPgpEnv =
      ({ fin := MExit.failJson "specified pgp_num 5 <= current 8"
         connected := true
         shutdownCalled := true }, [CloudOsdPool.getArgs "data" "pgp_num"]) ∧
    CloudOsdPool.main cloudPgpnum8Params cloudPoolPgpEnv =
      ({ fin := MExit.exitJson { name := "data" }
         connected := true
         shutdownCalled := true }, [CloudOsdPool.getArgs "data" "pgp_num"]) ∧
    CloudOsdPool.main cloudPgpnum9Params cloudPoolPgpEnv =
      ({ fin := MExit.exitJson
           { name := "data"
             changed := true
             outs := some "set pool 1 pgp_num to 9" }
         connected := true
         shutdownCalled := true },
       [CloudOsdPool.getArgs "data" "pgp_num", CloudOsdPool.lspoolsArgs,
        CloudOsdPool.setArgs "data" "pgp_num" 9]) := by
  refine ⟨?_, ?_, ?_, ?_, ?_, ?_⟩
  · exact c5_amended.1 cloudPgnum5Params cloudPoolEnv 5 8 rfl rfl rfl rfl rfl rfl rfl rfl
      (by omega)
  · exact c5_amended.2.1 cloudPgnum8Params cloudPoolEnv 8 8 rfl rfl rfl rfl rfl rfl rfl rfl
      rfl rfl
  · exact c5_amended.2.2.1 cloudPgnum9Params cloudPoolEnv 9 8 ("data", 1) rfl rfl rfl rfl rfl
      rfl rfl rfl rfl (by omega) rfl rfl rfl
  · exact c5_amended.2.2.2.1 cloudPgpnum5Params cloudPoolPgpEnv 5 8 rfl rfl rfl rfl rfl rfl
      rfl rfl rfl (by omega)
  · exact c5_amended.2.2.2.2.1 cloudPgpnum8Params cloudPoolPgpEnv 8 8 rfl rfl rfl rfl rfl rfl
      rfl rfl rfl rfl
  · exact c5_amended.2.2.2.2.2 cloudPgpnum9Params cloudPoolPgpEnv 9 8 ("data", 1) rfl rfl rfl
      rfl rfl rfl rfl rfl rfl (by omega) rfl rfl rfl

/-- C6 counterexample: the claim that state=present for a pool without
pgnum always fails validation is false when the pool already exists: the
shell module then exits successfully as a no-op without any validation
error. -/
theorem c6_counterexample :
    CephOsdPool.main poolNoPgnumParams ["data"] silentRun =
      (MExit.exitJson { name := "data" }, []) := rfl

/-- C6 amended: a present request for an image without size always fails
validation with no command issued (whether or not the image exists); a
present request for a pool without pgnum fails validation with no call
issued only when the pool does not yet exist, in both variants; on an
already existing pool the shell module exits successfully as a no-op. -/
theorem c6_amended :
    (∀ p env, p.state = "present" → truthyInt p.size = false →
      CephRbd.main p env = (MExit.failJson "size is required when state=present", [])) ∧
    (∀ p pools run, p.state = "present" → pools.contains p.name = false →
      truthyInt p.pgnum = false →
      CephOsdPool.main p pools run =
        (MExit.failJson "pgnum is required when state=present", [])) ∧
    (∀ p env, p.state = "present" → env.pools.contains p.name = false →
      env.initOk = true → env.connectOk = true → truthyInt p.pgnum = false →
      CloudOsdPool.main p env =
        ({ fin := MExit.failJson "pgnum is required when state=present"
           connected := true
           shutdownCalled := true }, [])) ∧
    (∀ p pools run, p.state = "present" → pools.contains p.name = true →
      CephOsdPool.main p pools run = (MExit.exitJson { name := p.name }, [])) := by
  refine ⟨?_, ?_, ?_, ?_⟩
  · intro p env hs hsize
    unfold CephRbd.main
    rw [hs]
    simp [hsize]
  · intro p pools run hs hc hpg
    have hcm := hc
    simp at hcm
    unfold CephOsdPool.main
    rw [hs]
    simp [hc, hcm, hpg]
  · intro p env hs hc hi hco hpg
    have hcm := hc
    simp at hcm
    unfold CloudOsdPool.main CloudOsdPool.osd_pool_create
    rw [hs]
    simp [hc, hcm, hi, hco, hpg]
  · intro p pools run hs hc
    have hcm := hc
    simp at hcm
    unfold CephOsdPool.main
    rw [hs]
    simp [hc, hcm]

/-- Witness for C6 amended: concrete sizeless image request, concrete
pgnumless pool creations in both variants, and a concrete pgnumless
request on an existing pool. -/
theorem c6_witness :
    CephRbd.main rbdNoSizeParams rbdExistsEnv =
      (MExit.failJson "size is required when state=present", []) ∧
    CephOsdPool.main poolNoPgnumParams [] silentRun =
      (MExit.failJson "pgnum is required when state=present", []) ∧
    CloudOsdPool.main cloudNoPgnumParams cloudPoolEnv =
      ({ fin := MExit.failJson "pgnum is required when state=present"
         connected := true
         shutdownCalled := true }, []) ∧
    CephOsdPool.main poolNoPgnumParams ["data"] silentRun =
      (MExit.exitJson { name := "data" }, []) := by
  refine ⟨?_, ?_, ?_, ?_⟩
  · exact c6_amended.1 rbdNoSizeParams rbdExistsEnv rfl rfl
  · exact c6_amended.2.1 poolNoPgnumParams [] silentRun rfl rfl rfl
  · exact c6_amended.2.2.1 cloudNoPgnumParams cloudPoolEnv rfl rfl rfl rfl rfl
  · exact c6_amended.2.2.2 poolNoPgnumParams ["data"] silentRun rfl rfl

/-- C7 counterexample: the claim that supplying a ruleset without pgpnum
fails validation for every state=present invocation is false when the
pool already exists: the shell module then ignores the ruleset entirely
and exits successfully as a no-op. -/
theorem c7_counterexample :
    CephOsdPool.main poolRulesetParams ["data"] silentRun =
      (MExit.exitJson { name := "data" }, []) := rfl

/-- C7 amended: on the creation path (pool not yet existing) both variants
fail with the message that pgpnum is required when a ruleset is supplied
without pgpnum, issuing no call; when the pool already exists the ruleset
parameter is ignored: the shell module no-ops, and the client-library
module with no placement-group parameters no-ops as well. -/
theorem c7_amended :
    (∀ p pools run, p.state = "present" → pools.contains p.name = false →
      truthyInt p.pgnum = true → truthyStr p.ruleset = true →
      truthyInt p.pgpnum = false →
      CephOsdPool.main p pools run =
        (MExit.failJson "pgpnum is required when ruleset specified", [])) ∧
    (∀ p env, p.state = "present" → env.pools.contains p.name = false →
      env.initOk = true → env.connectOk = true →
      truthyInt p.pgnum = true → truthyStr p.ruleset = true →
      truthyInt p.pgpnum = false →
      CloudOsdPool.main p env =
        ({ fin := MExit.failJson "pgpnum is required when ruleset specified"
           connected := true
           shutdownCalled := true }, [])) ∧
    (∀ p pools run, p.state = "present" → pools.contains p.name = true →
      CephOsdPool.main p pools run = (MExit.exitJson { name := p.name }, [])) ∧
    (∀ p env, p.state = "present" → env.pools.contains p.name = true →
      env.initOk = true → env.connectOk = true →
      p.pgnum = none → p.pgpnum = none →
      CloudOsdPool.main p env =
        ({ fin := MExit.exitJson { name := p.name }
           connected := true
           shutdownCalled := true }, [])) := by
  refine ⟨?_, ?_, ?_, ?_⟩
  · intro p pools run hs hc hpg hr hpp
    have hcm := hc
    simp at hcm
    unfold CephOsdPool.main
    rw [hs]
    simp [hc, hcm, hpg, hr, hpp]
  · intro p env hs hc hi hco hpg hr hpp
    have hcm := hc
    simp at hcm
    unfold CloudOsdPool.main CloudOsdPool.osd_pool_create
    rw [hs]
    simp [hc, hcm, hi, hco, hpg, hr, hpp]
  · intro p pools run hs hc
    have hcm := hc
    simp at hcm
    unfold CephOsdPool.main
    rw [hs]
    simp [hc, hcm]
  · intro p env hs hc hi hco hpg hpp
    have hcm := hc
    simp at hcm
    unfold CloudOsdPool.main CloudOsdPool.osd_pool_modify
    rw [hs]
    simp [truthyInt, hc, hcm, hi, hco, hpg, hpp]

/-- Witness for C7 amended: concrete ruleset-without-pgpnum creations fail
in both variants, and concrete ruleset-without-pgpnum requests on an
existing pool are successful no-ops in both variants. -/
theorem c7_witness :
    CephOsdPool.main poolRulesetParams [] silentRun =
      (MExit.failJson "pgpnum is required when ruleset specified", []) ∧
    CloudOsdPool.main cloudRulesetParams cloudPoolEnv =
      ({ fin := MExit.failJson "pgpnum is required when ruleset specified"
         connected := true
         shutdownCalled := true }, []) ∧
    CephOsdPool.main poolRulesetParams ["data"] silentRun =
      (MExit.exitJson { name := "data" }, []) ∧
    CloudOsdPool.main cloudExistingRulesetParams cloudPoolEnv =
      ({ fin := MExit.exitJson { name := "data" }
         connected := true
         shutdownCalled := true }, []) := by
  refine ⟨?_, ?_, ?_, ?_⟩
  · exact c7_amended.1 poolRulesetParams [] silentRun rfl rfl rfl rfl rfl
  · exact c7_amended.2.1 cloudRulesetParams cloudPoolEnv rfl rfl rfl rfl rfl rfl rfl
  · exact c7_amended.2.2.1 poolRulesetParams ["data"] silentRun rfl rfl
  · exact c7_amended.2.2.2 cloudExistingRulesetParams cloudPoolEnv rfl rfl rfl rfl rfl rfl

/-- C1 counterexample: the claim that every mutating sub-action of every
resource kind decides changed by matching the command output against a
statically expected success message is false for the image-mapping kind.
Two environments whose command behaviour is literally identical (same
status, same output, same diagnostic text on every command) yield
changed=true in one and changed=false in the other, because ceph_rbd_map
decides changed by re-querying the mapping table, not by inspecting the
output text. -/
theorem c1_counterexample :
    mapEnvMapped.run = mapEnvUnmapped.run ∧
    CephRbdMap.main mapImgParams mapEnvMapped =
      (MExit.exitJson { name := "img"
                        rc := some 0
                        cmd := some "rbd map img"
                        stdout := some ""
                        stderr := some ""
                        rbd_mappings := some [("img", "dev0")]
                        changed := true }, ["rbd map img"]) ∧
    CephRbdMap.main mapImgParams mapEnvUnmapped =
      (MExit.exitJson { name := "img"
                        rc := some 0
                        cmd := some "rbd map img"
                        stdout := some ""
                        stderr := some ""
                        rbd_mappings := some []
                        changed := false }, ["rbd map img"]) :=
  ⟨rfl, rfl, rfl⟩

set_option maxHeartbeats 2000000 in
/-- C1 amended: the output-matching classification holds for the pool and
cache-tier sub-actions but not for the image kinds. Whenever the pool
module runs a create (state=present) or delete (state=absent) command and
exits normally, in either variant, changed is the exact comparison of the
expected creation or removal message with the diagnostic output; whenever
the cache-tier module exits normally, changed is the conjunction of the
exact matches of the steps of its flow (attach, cache-mode and overlay
under state=present; the removal message under state=absent); whenever
the attribute-set sub-action of the client-library pool module exits
normally, changed is the wildcard-pattern (prefix) match of the expected
set message against the diagnostic text -- a zero status with
non-matching output silently yields changed=false in all those cases; the
image-create, image-map and image-unmap sub-actions instead decide
changed by re-querying the external system for the image or mapping
listing. -/
theorem c1_amended :
    (∀ p pools run r cmd, p.state = "present" →
      CephOsdPool.main p pools run = (MExit.exitJson r, [cmd]) →
      r.changed = (s!"pool \x27{p.name}\x27 created" == rstripCRLF (run cmd).err)) ∧
    (∀ p pools run r cmd, p.state = "absent" →
      CephOsdPool.main p pools run = (MExit.exitJson r, [cmd]) →
      r.changed = (s!"pool \x27{p.name}\x27 removed" == rstripCRLF (run cmd).err)) ∧
    (∀ p env res r t,
      CloudOsdPool.osd_pool_create p env res = (MExit.exitJson r, t) →
      r.changed = (s!"pool \x27{p.name}\x27 created"
        == (env.jcmd (CloudOsdPool.createArgs p)).err)) ∧
    (∀ p env res r t,
      CloudOsdPool.osd_pool_delete p env res = (MExit.exitJson r, t) →
      r.changed = (s!"pool \x27{p.name}\x27 removed"
        == (env.jcmd (CloudOsdPool.deleteArgs p.name)).err)) ∧
    (∀ p env res v newVal r t,
      CloudOsdPool.osd_pool_set p env res v newVal = (MExit.exitJson r, t) →
      ∃ q, (env.loadsPools (env.jcmd CloudOsdPool.lspoolsArgs).out).find?
          (fun x => x.fst == p.name) = some q ∧
        r.changed = pyStartsWith ((env.jcmd (CloudOsdPool.setArgs p.name v newVal)).err)
          (CloudOsdPool.setExpected q.snd v)) ∧
    (∀ p pools run r t, p.state = "present" →
      CephOsdTier.main p pools run = (MExit.exitJson r, t) →
      r.changed =
        (let sp := p.storage_pool
         let cp := p.cache_pool
         let aCmd := if p.force_nonempty then
             s!"ceph osd tier add {sp} {cp} --force-nonempty"
           else
             s!"ceph osd tier add {sp} {cp}"
         let m1 := s!"pool \x27{cp}\x27 is now (or already was) a tier of \x27{sp}\x27"
             == rstripCRLF (run aCmd).err
         let modeCmd := s!"ceph osd tier cache-mode {cp} {p.cache_mode}"
         let m2 := s!"set cache_mode for pool \x27{cp}\x27 to {p.cache_mode}"
             == rstripCRLF (run modeCmd).err
         let oCmd := if p.set_overlay then
             s!"ceph osd tier set-overlay {sp} {cp}"
           else
             s!"ceph osd tier remove-overlay {cp}"
         let oMsg := if p.set_overlay then
             s!"overlay for \x27{sp}\x27 is now (or already was) \x27{cp}\x27"
           else
             s!"there is now (or already was) no overlay for \x27{cp}\x27"
         let m3 := oMsg == rstripCRLF (run oCmd).err
         m1 && (m2 && m3))) ∧
    (∀ p pools run r t, p.state = "absent" →
      CephOsdTier.main p pools run = (MExit.exitJson r, t) →
      r.changed =
        (s!"pool \x27{p.cache_pool}\x27 is now (or already was) not a tier of \x27{p.storage_pool}\x27"
          == rstripCRLF
            (run s!"ceph osd tier remove {p.storage_pool} {p.cache_pool}").err)) ∧
    (∀ p env r cmd, p.state = "present" →
      env.rbdNames.contains p.name = false →
      CephRbd.main p env = (MExit.exitJson r, [cmd]) →
      r.changed = env.rbdNamesAfter.contains p.name) ∧
    (∀ p env r cmd, p.state = "present" →
      CephRbdMap.main p env = (MExit.exitJson r, [cmd]) →
      r.changed = (env.mappingsAfter.map Prod.fst).contains p.name) ∧
    (∀ p env r cmd, p.state = "absent" →
      CephRbdMap.main p env = (MExit.exitJson r, [cmd]) →
      r.changed = ! (env.mappingsAfter.map Prod.fst).contains p.name) := by
  refine ⟨?_, ?_, ?_, ?_, ?_, ?_, ?_, ?_, ?_, ?_⟩
  · intro p pools run r cmd hs h
    unfold CephOsdPool.main at h
    rw [hs] at h
    iterate 8 (all_goals (try (dsimp only at h)); all_goals (try (split at h)))
    all_goals simp_all
    all_goals (rcases h with ⟨h1, h2⟩; subst h1; subst h2; rfl)
  · intro p pools run r cmd hs h
    unfold CephOsdPool.main at h
    rw [hs] at h
    iterate 8 (all_goals (try (dsimp only at h)); all_goals (try (split at h)))
    all_goals simp_all
    all_goals (rcases h with ⟨h1, h2⟩; subst h1; subst h2; rfl)
  · intro p env res r t h
    unfold CloudOsdPool.osd_pool_create at h
    iterate 8 (all_goals (try (dsimp only at h)); all_goals (try (split at h)))
    all_goals simp_all
    all_goals (rcases h with ⟨h1, h2⟩; subst h1; rfl)
  · intro p env res r t h
    unfold CloudOsdPool.osd_pool_delete at h
    iterate 8 (all_goals (try (dsimp only at h)); all_goals (try (split at h)))
    all_goals simp_all
    all_goals (rcases h with ⟨h1, h2⟩; subst h1; rfl)
  · intro p env res v newVal r t h
    unfold CloudOsdPool.osd_pool_set CloudOsdPool.osd_lspools at h
    by_cases hrc : (env.jcmd CloudOsdPool.lspoolsArgs).rc = 0
    · simp only [hrc, bne_self_eq_false, Bool.false_eq_true, if_false] at h
      split at h
      · simp at h
      · rename_i q hq
        split at h
        · simp at h
        · simp only [Prod.mk.injEq, MExit.exitJson.injEq] at h
          obtain ⟨h1, h2⟩ := h
          subst h1
          exact ⟨q, hq, rfl⟩
    · rw [if_pos (by simpa using hrc)] at h
      dsimp only at h
      simp at h
  · intro p pools run r t hs h
    unfold CephOsdTier.main CephOsdTier.shUpd at h
    rw [hs] at h
    iterate 8 (all_goals (try (dsimp only at h)); all_goals (try (split at h)))
    all_goals simp_all
    all_goals (rcases h with ⟨h1, h2⟩; subst h1; subst h2; simp_all)
  · intro p pools run r t hs h
    unfold CephOsdTier.main CephOsdTier.shUpd at h
    rw [hs] at h
    iterate 8 (all_goals (try (dsimp only at h)); all_goals (try (split at h)))
    all_goals simp_all
    all_goals (rcases h with ⟨h1, h2⟩; subst h1; subst h2; simp_all)
  · intro p env r cmd hs hc h
    unfold CephRbd.main at h
    rw [hs] at h
    iterate 8 (all_goals (try (dsimp only at h)); all_goals (try (split at h)))
    all_goals simp_all
    all_goals (rcases h with ⟨h1, h2⟩; subst h1; rfl)
  · intro p env r cmd hs h
    unfold CephRbdMap.main at h
    rw [hs] at h
    iterate 8 (all_goals (try (dsimp only at h)); all_goals (try (split at h)))
    all_goals simp_all
    all_goals (rcases h with ⟨h1, h2⟩; subst h1; rfl)
  · intro p env r cmd hs h
    unfold CephRbdMap.main at h
    rw [hs] at h
    iterate 8 (all_goals (try (dsimp only at h)); all_goals (try (split at h)))
    all_goals simp_all
    all_goals (rcases h with ⟨h1, h2⟩; subst h1; rfl)

/-- Witness for C1 amended: concrete classification outcomes for pool
creation and deletion in both variants, a client-library attribute set,
the cache-tier flows, and image create, map and unmap requests. -/
theorem c1_witness :
    (({ name := "data"
        rc := some 0
        cmd := some "ceph osd pool create data 128"
        stdout := some ""
        stderr := some ""
        changed := false } : CephOsdPool.Res).changed
      = (s!"pool \x27data\x27 created"
          == rstripCRLF (silentRun "ceph osd pool create data 128").err)) ∧
    (({ name := "data"
        rc := some 0
        cmd := some "ceph osd pool delete data data --yes-i-really-really-mean-it"
        stdout := some ""
        stderr := some ""
        changed := false } : CephOsdPool.Res).changed
      = (s!"pool \x27data\x27 removed"
          == rstripCRLF
            (silentRun "ceph osd pool delete data data --yes-i-really-really-mean-it").err)) ∧
    (({ name := "data"
        changed := false
        outbuf := some "[]"
        outs := some "set pool 1 pg_num to 9" } : CloudOsdPool.Res).changed
      = (s!"pool \x27data\x27 created"
          == (cloudPoolEnv.jcmd (CloudOsdPool.createArgs cloudCreateParams)).err)) ∧
    (({ name := "data"
        changed := false
        outbuf := some "[]"
        outs := some "set pool 1 pg_num to 9" } : CloudOsdPool.Res).changed
      = (s!"pool \x27data\x27 removed"
          == (cloudPoolEnv.jcmd (CloudOsdPool.deleteArgs "data")).err)) ∧
    (∃ q, (cloudPoolEnv.loadsPools (cloudPoolEnv.jcmd CloudOsdPool.lspoolsArgs).out).find?
        (fun x => x.fst == "data") = some q ∧
      (({ name := "data", changed := true, outbuf := none,
          outs := some "set pool 1 pg_num to 9" } : CloudOsdPool.Res).changed
        = pyStartsWith ((cloudPoolEnv.jcmd (CloudOsdPool.setArgs "data" "pg_num" 9)).err)
            (CloudOsdPool.setExpected q.snd "pg_num"))) ∧
    (({ storage_pool := "cold"
        cache_pool := "hot"
        rc := some 0
        cmd := some "ceph osd tier remove-overlay hot"
        stdout := some ""
        stderr := some "there is now (or already was) no overlay for \x27hot\x27"
        changed := true } : CephOsdTier.Res).changed = true) ∧
    (({ storage_pool := "cold"
        cache_pool := "hot"
        rc := some 0
        cmd := some "ceph osd tier remove cold hot"
        stdout := some ""
        stderr := some "pool \x27hot\x27 is now (or already was) not a tier of \x27cold\x27"
        changed := true } : CephOsdTier.Res).changed
      = (s!"pool \x27hot\x27 is now (or already was) not a tier of \x27cold\x27"
          == rstripCRLF (tierAbsentRun "ceph osd tier remove cold hot").err)) ∧
    (({ name := "img"
        rc := some 0
        cmd := some "rbd create img --size 5"
        stdout := some ""
        stderr := some ""
        changed := true } : CephRbd.Res).changed
      = rbdCreateEnv.rbdNamesAfter.contains "img") ∧
    (({ name := "img"
        rc := some 0
        cmd := some "rbd map img"
        stdout := some ""
        stderr := some ""
        rbd_mappings := some [("img", "dev0")]
        changed := true } : CephRbdMap.Res).changed
      = (mapEnvMapped.mappingsAfter.map Prod.fst).contains "img") ∧
    (({ name := "img"
        rc := some 0
        cmd := some "rbd unmap dev0"
        stdout := some ""
        stderr := some ""
        rbd_mappings := some []
        changed := true } : CephRbdMap.Res).changed
      = ! (mapMappedEnv.mappingsAfter.map Prod.fst).contains "img") := by
  refine ⟨?_, ?_, ?_, ?_, ?_, ?_, ?_, ?_, ?_, ?_⟩
  · exact c1_amended.1 poolCreateParams [] silentRun _ "ceph osd pool create data 128" rfl rfl
  · exact c1_amended.2.1 poolAbsentParams ["data"] silentRun _
      "ceph osd pool delete data data --yes-i-really-really-mean-it" rfl rfl
  · exact c1_amended.2.2.1 cloudCreateParams cloudPoolEnv { name := "data" } _
      [CloudOsdPool.createArgs cloudCreateParams] rfl
  · exact c1_amended.2.2.2.1 cloudDeleteParams cloudPoolEnv { name := "data" } _
      [CloudOsdPool.deleteArgs "data"] rfl
  · have h := c1_amended.2.2.2.2.1 cloudPgnum9Params cloudPoolEnv { name := "data" } "pg_num"
      9 _ [CloudOsdPool.lspoolsArgs, CloudOsdPool.setArgs "data" "pg_num" 9] rfl
    exact h
  · exact c1_amended.2.2.2.2.2.1 tierPresentParams ["cold", "hot"] tierMatchRun _
      ["ceph osd tier add cold hot", "ceph osd tier cache-mode hot writeback",
       "ceph osd tier remove-overlay hot"] rfl rfl
  · exact c1_amended.2.2.2.2.2.2.1 tierAbsentParams ["cold", "hot"] tierAbsentRun _
      ["ceph osd tier remove-overlay hot", "ceph osd tier remove cold hot"] rfl rfl
  · exact c1_amended.2.2.2.2.2.2.2.1 rbdResizeParams rbdCreateEnv _ "rbd create img --size 5"
      rfl rfl rfl
  · exact c1_amended.2.2.2.2.2.2.2.2.1 mapImgParams mapEnvMapped _ "rbd map img" rfl rfl
  · exact c1_amended.2.2.2.2.2.2.2.2.2 mapAbsentParams mapMappedEnv _ "rbd unmap dev0" rfl rfl

/-- Witness for C9: the concrete resize and removal requests hit the two
name errors. -/
theorem c9_witness :
    (CephRbd.main rbdResizeParams rbdResizeEnv).1 = MExit.raised "NameError: stderr" ∧
    CephRbd.main rbdRemoveParams rbdExistsEnv = (MExit.raised "NameError: cmd", []) :=
  ⟨c9_confirmed.1 rbdResizeParams rbdResizeEnv rfl rfl rfl
      (fun h => absurd h (by decide)) (by decide) (fun c => rfl),
   c9_confirmed.2 rbdRemoveParams rbdExistsEnv rfl rfl rfl⟩

end Ceph
